import Mathlib

/-!
# SEPA XML validator: a shallow embedding of `src/validator.js`

The browser's `DOMParser` is outside the repository, so the embedding starts
at the parsed document: `validateXML` below is the body of the JavaScript
`validateXML` after `parser.parseFromString(xmlString, "text/xml")`.

* `XmlNode`, `XmlDocument` model the part of the DOM the code reads: tag
  names, the namespace URI of an element, child nodes and text.  Comments and
  processing instructions influence neither `getElementsByTagName` nor
  `textContent` and are left out of the tree.
* JavaScript `undefined` is `Option.none`; an object that is a literal is a
  structure.
* `for ... of` loops and `forEach` with `push` are left folds that append at
  the end of the accumulator.
-/

namespace SepaValidator

/-! ## Data model -/

/-- A node of the parsed tree: a text node, or an element with its qualified
name, its namespace URI (`null` is `none`) and its child nodes in order. -/
inductive XmlNode where
  | text (data : String)
  | element (tagName : String) (namespaceURI : Option String) (childNodes : List XmlNode)

/-- The parsed document; `documentElement` is `null` (`none`) when the
document has no root element. -/
structure XmlDocument where
  documentElement : Option XmlNode

/-- A thrown JavaScript error; handlers only read its `message`. -/
structure JsError where
  message : String
deriving DecidableEq, Repr

/-- An entry of the `requiredElements` array literal. -/
structure RequiredElement where
  name : String
  type : String
deriving DecidableEq, Repr

/-- The object stored in `details.header`: the literal `{}` it starts as,
or the four-field literal built from the first `GrpHdr`. -/
inductive HeaderDetails where
  | empty
  | groupHeader (msgId creationDate nbOfTxs ctrlSum : Option String)
deriving DecidableEq, Repr

/-- Reading `details.header.msgId`. -/
def HeaderDetails.msgId : HeaderDetails → Option String
  | .empty => none
  | .groupHeader m _ _ _ => m

/-- Reading `details.header.creationDate`. -/
def HeaderDetails.creationDate : HeaderDetails → Option String
  | .empty => none
  | .groupHeader _ c _ _ => c

/-- Reading `details.header.nbOfTxs`. -/
def HeaderDetails.nbOfTxs : HeaderDetails → Option String
  | .empty => none
  | .groupHeader _ _ n _ => n

/-- Reading `details.header.ctrlSum`. -/
def HeaderDetails.ctrlSum : HeaderDetails → Option String
  | .empty => none
  | .groupHeader _ _ _ c => c

/-- The `paymentDetails` object literal. -/
structure PaymentDetails where
  id : Option String
  method : Option String
  batch : Option String
  serviceLevel : Option String
  localInstrument : Option String
  sequenceType : Option String
  collectionDate : Option String
deriving DecidableEq, Repr

/-- The object literal pushed on `details.transactions`. -/
structure TransactionDetails where
  name : String
  iban : String
  reference : String
  amount : String
deriving DecidableEq, Repr

/-- The `mandateDetails` object literal. -/
structure MandateDetails where
  mandateId : Option String
  signatureDate : Option String
  sequenceType : Option String
deriving DecidableEq, Repr

/-- The `details` object. -/
structure Details where
  header : HeaderDetails
  payments : List PaymentDetails
  mandates : List MandateDetails
  transactions : List TransactionDetails
deriving DecidableEq, Repr

/-- The object `validateXML` returns; `details` is `none` when the returned
literal has no `details` key. -/
structure ValidationResult where
  valid : Bool
  message : String
  details : Option Details
deriving DecidableEq, Repr

/-! ## DOM queries -/

mutual
/-- DOM `textContent`: the text of all descendant text nodes, concatenated
in document order. -/
def XmlNode.textContent : XmlNode → String
  | .text s => s
  | .element _ _ cs => textContentList cs
/-- Concatenated `textContent` of a list of sibling nodes. -/
def textContentList : List XmlNode → String
  | [] => ""
  | c :: cs => c.textContent ++ textContentList cs
end

mutual
/-- The elements of the subtree rooted at a node, the node itself first,
in document (pre-)order. -/
def XmlNode.elements : XmlNode → List XmlNode
  | .text _ => []
  | .element t ns cs => .element t ns cs :: elementsList cs
/-- The elements of the subtrees rooted at a list of siblings, in document
order. -/
def elementsList : List XmlNode → List XmlNode
  | [] => []
  | c :: cs => c.elements ++ elementsList cs
end

/-- Whether a node is an element with the given qualified name. -/
def XmlNode.hasTagName (name : String) : XmlNode → Bool
  | .text _ => false
  | .element t _ _ => t == name

/-- Reading `element.namespaceURI`. -/
def XmlNode.namespaceURI : XmlNode → Option String
  | .text _ => none
  | .element _ ns _ => ns

/-- DOM `element.getElementsByTagName(name)`: the descendants of the element
(itself excluded) with that name, in document order. -/
def XmlNode.getElementsByTagName (node : XmlNode) (name : String) : List XmlNode :=
  match node with
  | .text _ => []
  | .element _ _ cs => (elementsList cs).filter (XmlNode.hasTagName name)

/-- DOM `document.getElementsByTagName(name)`: every element of the document
(the root included) with that name, in document order. -/
def XmlDocument.getElementsByTagName (xmlDoc : XmlDocument) (name : String) : List XmlNode :=
  match xmlDoc.documentElement with
  | none => []
  | some root => root.elements.filter (XmlNode.hasTagName name)

/-- JavaScript `collection[0]?.textContent`: the text of the first node,
`undefined` for an empty collection. -/
def firstTextContent (collection : List XmlNode) : Option String :=
  collection.head?.map XmlNode.textContent

/-- JavaScript `collection[0]?.getElementsByTagName(name)[0]?.textContent`:
`undefined` as soon as a link of the chain is absent. -/
def firstNestedTextContent (collection : List XmlNode) (name : String) : Option String :=
  match collection.head? with
  | none => none
  | some node => firstTextContent (node.getElementsByTagName name)

/-- JavaScript `value || ""` on a string that may be `undefined`: the value
when it is a non-empty string, else `""`. -/
def orEmpty (value : Option String) : String :=
  match value with
  | none => ""
  | some s => if s = "" then "" else s

/-- JavaScript `s.includes(pattern)`: `pattern` occurs in `s` as a contiguous
substring. -/
def includes (s pattern : String) : Bool :=
  s.data.tails.any (fun t => pattern.data.isPrefixOf t)

/-! ## `validateXML` -/

/-- The `TypeError` raised by reading a property of `null`; the wording of
its message is the JavaScript engine's. -/
def nullPropertyError (subject : String) : JsError :=
  ⟨subject ++ " is null"⟩

/-- The substring looked for in the root namespace URI. -/
def sepaNamespace : String := "urn:iso:std:iso:20022"

/-- Line 59: `isCreditTransfer`. -/
def isCreditTransfer (xmlDoc : XmlDocument) : Bool :=
  (xmlDoc.getElementsByTagName "CstmrCdtTrfInitn").length > 0

/-- Line 60: `isDirectDebit`. -/
def isDirectDebit (xmlDoc : XmlDocument) : Bool :=
  (xmlDoc.getElementsByTagName "CstmrDrctDbtInitn").length > 0

/-- Lines 69-80: the `requiredElements` array after the kind-specific
`push`. -/
def requiredElements (isCreditTransfer : Bool) : List RequiredElement :=
  let requiredElements : List RequiredElement :=
    [ ⟨"Document", "element"⟩,
      ⟨"GrpHdr", "element"⟩,
      ⟨"NbOfTxs", "element"⟩,
      ⟨"CtrlSum", "element"⟩ ]
  if isCreditTransfer then
    requiredElements ++ [⟨"CstmrCdtTrfInitn", "element"⟩]
  else
    requiredElements ++ [⟨"CstmrDrctDbtInitn", "element"⟩]

/-- Line 55: the message for a root namespace that is not a SEPA one. -/
def notSepaMessage : String :=
  "Le fichier ne semble pas être un fichier SEPA valide"

/-- Line 65: the message for a document without a kind marker. -/
def noKindMessage : String :=
  "Le fichier ne semble pas être un fichier SEPA valide (pas de CstmrCdtTrfInitn ou CstmrDrctDbtInitn trouvé)"

/-- Line 86: the message pushed for a required element that is not found. -/
def missingElementMessage (name : String) : String :=
  "Élément requis manquant: " ++ name

/-- Line 93: the `PmtInf` message of a credit transfer. -/
def pmtInfTransferMessage : String :=
  "Au moins un élément PmtInf est requis pour les virements"

/-- Line 98: the `PmtInf` message of a direct debit. -/
def pmtInfDebitMessage : String :=
  "Au moins un élément PmtInf est requis pour les prélèvements"

/-- Line 103: the mandate message of a direct debit. -/
def mandateMessage : String :=
  "Au moins un élément MndtRltdInf (informations sur le mandat) est requis pour les prélèvements"

/-- Lines 83-88: one step of the `forEach` over `requiredElements`. -/
def checkRequiredElement (xmlDoc : XmlDocument) (validationErrors : List String)
    (element : RequiredElement) : List String :=
  let found := (xmlDoc.getElementsByTagName element.name).length > 0
  if !found then
    validationErrors ++ [missingElementMessage element.name]
  else
    validationErrors

/-- Lines 82-105: the `validationErrors` array when line 107 reads it. -/
def validationErrors (xmlDoc : XmlDocument) (isCreditTransfer : Bool) : List String :=
  let validationErrors : List String :=
    (requiredElements isCreditTransfer).foldl (checkRequiredElement xmlDoc) []
  if isCreditTransfer then
    let paymentInfos := xmlDoc.getElementsByTagName "PmtInf"
    if paymentInfos.length = 0 then
      validationErrors ++ [pmtInfTransferMessage]
    else
      validationErrors
  else
    let paymentInfos := xmlDoc.getElementsByTagName "PmtInf"
    let validationErrors :=
      if paymentInfos.length = 0 then
        validationErrors ++ [pmtInfDebitMessage]
      else
        validationErrors
    let mandateRelatedInfos := xmlDoc.getElementsByTagName "MndtRltdInf"
    if mandateRelatedInfos.length = 0 then
      validationErrors ++ [mandateMessage]
    else
      validationErrors

/-- Lines 121-129: `details.header`. -/
def extractHeader (xmlDoc : XmlDocument) : HeaderDetails :=
  match (xmlDoc.getElementsByTagName "GrpHdr").head? with
  | none => HeaderDetails.empty
  | some groupHeader =>
    HeaderDetails.groupHeader
      (firstTextContent (groupHeader.getElementsByTagName "MsgId"))
      (firstTextContent (groupHeader.getElementsByTagName "CreDtTm"))
      (firstTextContent (groupHeader.getElementsByTagName "NbOfTxs"))
      (firstTextContent (groupHeader.getElementsByTagName "CtrlSum"))

/-- Lines 133-141: the `paymentDetails` of one `PmtInf`. -/
def paymentDetails (payment : XmlNode) : PaymentDetails :=
  { id := firstTextContent (payment.getElementsByTagName "PmtInfId")
    method := firstTextContent (payment.getElementsByTagName "PmtMtd")
    batch := firstTextContent (payment.getElementsByTagName "BtchBookg")
    serviceLevel := firstNestedTextContent (payment.getElementsByTagName "SvcLvl") "Cd"
    localInstrument := firstNestedTextContent (payment.getElementsByTagName "LclInstrm") "Cd"
    sequenceType := firstTextContent (payment.getElementsByTagName "SeqTp")
    collectionDate := firstTextContent (payment.getElementsByTagName "ReqdColltnDt") }

/-- Lines 131-143: `details.payments`. -/
def extractPayments (xmlDoc : XmlDocument) : List PaymentDetails :=
  (xmlDoc.getElementsByTagName "PmtInf").foldl
    (fun payments payment => payments ++ [paymentDetails payment]) []

/-- Lines 149-156: the object pushed for one `CdtTrfTxInf`. -/
def creditTransaction (tx : XmlNode) : TransactionDetails :=
  let creditorName := orEmpty (firstNestedTextContent (tx.getElementsByTagName "Cdtr") "Nm")
  let creditorIban := orEmpty (firstNestedTextContent (tx.getElementsByTagName "CdtrAcct") "IBAN")
  let reference := orEmpty (firstNestedTextContent (tx.getElementsByTagName "RmtInf") "Ustrd")
  let amount := orEmpty (firstTextContent (tx.getElementsByTagName "InstdAmt"))
  { name := creditorName, iban := creditorIban, reference := reference, amount := amount }

/-- Lines 161-168: the object pushed for one `DrctDbtTxInf`. -/
def debitTransaction (tx : XmlNode) : TransactionDetails :=
  let debtorName := orEmpty (firstNestedTextContent (tx.getElementsByTagName "Dbtr") "Nm")
  let debtorIban := orEmpty (firstNestedTextContent (tx.getElementsByTagName "DbtrAcct") "IBAN")
  let reference := orEmpty (firstNestedTextContent (tx.getElementsByTagName "RmtInf") "Ustrd")
  let amount := orEmpty (firstTextContent (tx.getElementsByTagName "InstdAmt"))
  { name := debtorName, iban := debtorIban, reference := reference, amount := amount }

/-- Lines 145-170: `details.transactions`. -/
def extractTransactions (xmlDoc : XmlDocument) (isCreditTransfer : Bool) :
    List TransactionDetails :=
  if isCreditTransfer then
    (xmlDoc.getElementsByTagName "CdtTrfTxInf").foldl
      (fun transactions tx => transactions ++ [creditTransaction tx]) []
  else
    (xmlDoc.getElementsByTagName "DrctDbtTxInf").foldl
      (fun transactions tx => transactions ++ [debitTransaction tx]) []

/-- Lines 175-179: the `mandateDetails` of one `MndtRltdInf`. -/
def mandateDetails (mandate : XmlNode) : MandateDetails :=
  { mandateId := firstTextContent (mandate.getElementsByTagName "MndtId")
    signatureDate := firstTextContent (mandate.getElementsByTagName "DtOfSgntr")
    sequenceType := firstTextContent (mandate.getElementsByTagName "AmdmntInd") }

/-- Lines 172-182: `details.mandates`. -/
def extractMandates (xmlDoc : XmlDocument) (isDirectDebit : Bool) : List MandateDetails :=
  if isDirectDebit then
    (xmlDoc.getElementsByTagName "MndtRltdInf").foldl
      (fun mandates mandate => mandates ++ [mandateDetails mandate]) []
  else
    []

/-- Lines 114-182: the `details` object of a document that passed the
structural checks. -/
def extractDetails (xmlDoc : XmlDocument) (isCreditTransfer isDirectDebit : Bool) : Details :=
  { header := extractHeader xmlDoc
    payments := extractPayments xmlDoc
    mandates := extractMandates xmlDoc isDirectDebit
    transactions := extractTransactions xmlDoc isCreditTransfer }

/-- Line 186: the message of a valid result. -/
def successMessage (isCreditTransfer : Bool) : String :=
  "Le fichier XML SEPA " ++ (if isCreditTransfer then "de virement" else "de prélèvement")
    ++ " semble valide"

/-- Lines 39-188: the body of the `try` block, on the parsed document.
`Except.error` is a thrown error. -/
def validateXMLTry (xmlDoc : XmlDocument) : Except JsError ValidationResult :=
  match xmlDoc.getElementsByTagName "parsererror" with
  | first :: _ =>
    .ok { valid := false
          message := "Erreur de format XML: " ++ first.textContent
          details := none }
  | [] =>
    match xmlDoc.documentElement with
    | none => .error (nullPropertyError "rootElement")
    | some rootElement =>
      let namespaceURI := rootElement.namespaceURI
      let notSepa : Bool :=
        match namespaceURI with
        | none => true
        | some uri => uri == "" || !(includes uri sepaNamespace)
      if notSepa then
        .ok { valid := false
              message := notSepaMessage
              details := none }
      else
        let isCreditTransfer := isCreditTransfer xmlDoc
        let isDirectDebit := isDirectDebit xmlDoc
        if !isCreditTransfer && !isDirectDebit then
          .ok { valid := false
                message := noKindMessage
                details := none }
        else
          let validationErrors := validationErrors xmlDoc isCreditTransfer
          if validationErrors.length > 0 then
            .ok { valid := false
                  message := "\n".intercalate validationErrors
                  details := none }
          else
            .ok { valid := true
                  message := successMessage isCreditTransfer
                  details := some (extractDetails xmlDoc isCreditTransfer isDirectDebit) }

/-- Lines 37-195: `validateXML`, with the `catch` branch. -/
def validateXML (xmlDoc : XmlDocument) : ValidationResult :=
  match validateXMLTry xmlDoc with
  | .ok result => result
  | .error error =>
    { valid := false
      message := "Erreur lors de la validation: " ++ error.message
      details := none }

/-! ## Vocabulary of the specification -/

/-- JavaScript `s.split("\n")`: the lines of a newline-joined message. -/
def lines (s : String) : List String :=
  (s.data.splitOn '\n').map String.mk

/-- JavaScript `line.startsWith("Élément requis manquant: ")`: the line
reports a missing required element. -/
def isMissingElementLine (line : String) : Bool :=
  "Élément requis manquant: ".data.isPrefixOf line.data

/-- The document has a root element whose namespace URI contains the SEPA
substring. -/
def hasSepaNamespace (xmlDoc : XmlDocument) : Bool :=
  match xmlDoc.documentElement with
  | none => false
  | some root =>
    match root.namespaceURI with
    | none => false
    | some uri => includes uri sepaNamespace

/-- The document contains an element with that name somewhere in the tree. -/
def XmlDocument.hasElement (xmlDoc : XmlDocument) (name : String) : Bool :=
  !(xmlDoc.getElementsByTagName name).isEmpty

/-- The document gets as far as the structural checks: no parser error, the
SEPA namespace, and one of the two kind markers. -/
def reachesStructuralChecks (xmlDoc : XmlDocument) : Prop :=
  xmlDoc.hasElement "parsererror" = false ∧ hasSepaNamespace xmlDoc = true ∧
    (xmlDoc.hasElement "CstmrCdtTrfInitn" = true ∨ xmlDoc.hasElement "CstmrDrctDbtInitn" = true)

/-- The names of the required elements the document lacks, in the order of
the `requiredElements` array. -/
def missingRequired (xmlDoc : XmlDocument) : List String :=
  ((requiredElements (isCreditTransfer xmlDoc)).map RequiredElement.name).filter
    (fun name => !xmlDoc.hasElement name)

/-- The lines the `PmtInf` and `MndtRltdInf` checks (lines 90-105) add for a
document of the given kind, in the order of the checks. -/
def kindErrors (xmlDoc : XmlDocument) (isCreditTransfer : Bool) : List String :=
  (if xmlDoc.hasElement "PmtInf" then []
    else [if isCreditTransfer then pmtInfTransferMessage else pmtInfDebitMessage])
  ++ (if !isCreditTransfer && !xmlDoc.hasElement "MndtRltdInf" then [mandateMessage] else [])

instance (xmlDoc : XmlDocument) : Decidable (reachesStructuralChecks xmlDoc) := by
  unfold reachesStructuralChecks
  infer_instance

/-- The two-level lookup with empty-string default, in the words of the
specification: `field` is the text of the first `inner` element inside the
first `outer` element of `tx`, and `""` when a link of that chain is
absent. -/
def DefaultsToEmpty (field : String) (tx : XmlNode) (outer inner : String) : Prop :=
  (tx.getElementsByTagName outer = [] → field = "") ∧
  (∀ block rest, tx.getElementsByTagName outer = block :: rest →
    block.getElementsByTagName inner = [] → field = "") ∧
  (∀ block rest node rest', tx.getElementsByTagName outer = block :: rest →
    block.getElementsByTagName inner = node :: rest' → field = node.textContent)

/-- The one-level lookup with empty-string default: `field` is the text of
the first `name` element inside `tx`, and `""` when there is none. -/
def TextOrEmpty (field : String) (tx : XmlNode) (name : String) : Prop :=
  (tx.getElementsByTagName name = [] → field = "") ∧
  (∀ node rest, tx.getElementsByTagName name = node :: rest → field = node.textContent)

/-- The direct children of a node that are elements with the given name
(the "direct children by tag name" query of the specification). -/
def XmlNode.childElements (node : XmlNode) (name : String) : List XmlNode :=
  match node with
  | .text _ => []
  | .element _ _ cs => cs.filter (XmlNode.hasTagName name)

/-- The one-level optional lookup: `field` is the text of the first `name`
element inside `node`, and absent when there is none. -/
def OptionalText (field : Option String) (node : XmlNode) (name : String) : Prop :=
  (node.getElementsByTagName name = [] → field = none) ∧
  (∀ first rest, node.getElementsByTagName name = first :: rest →
    field = some first.textContent)

/-- The two-level optional lookup: `field` is the text of the first `inner`
element inside the first `outer` element of `node`, and absent when a link
of that chain is absent. -/
def OptionalNestedText (field : Option String) (node : XmlNode) (outer inner : String) :
    Prop :=
  (node.getElementsByTagName outer = [] → field = none) ∧
  (∀ block rest, node.getElementsByTagName outer = block :: rest →
    block.getElementsByTagName inner = [] → field = none) ∧
  (∀ block rest first rest', node.getElementsByTagName outer = block :: rest →
    block.getElementsByTagName inner = first :: rest' → field = some first.textContent)

/-! ## Schema loading and the submit handler

`fetch`, `xmllint` and `DOMParser` are injected: they are parameters of the
model. The page state is passed explicitly. Besides `schemaCache` it holds
three logs that the code does not have; they record the calls made, so that
"is invoked" can be stated. `await` is sequential composition. -/

/-- Lines 8-11: the shape of `SCHEMA_URLS`. -/
structure SchemaUrls where
  credit : String
  debit : String
deriving DecidableEq, Repr

/-- Lines 8-11: `SCHEMA_URLS`. -/
def SCHEMA_URLS : SchemaUrls :=
  { credit := "https://raw.githubusercontent.com/ISO20022/ISO20022/master/Repository/Pain/pain.001.001.03.xsd"
    debit := "https://raw.githubusercontent.com/ISO20022/ISO20022/master/Repository/Pain/pain.008.001.02.xsd" }

/-- What the promise of `fetch(url)` settles to: a rejection, or a response
with its `ok` flag and what the promise of `resp.text()` settles to. -/
inductive FetchOutcome where
  | rejected (error : JsError)
  | response (ok : Bool) (text : Except JsError String)

/-- The injected `fetch`: its outcome for a URL may depend on the URLs
fetched before. -/
abbrev Fetch := List String → String → FetchOutcome

/-- The object `xmllint.validateXML` returns; `errors` is `null` (`none`)
or an array of messages. -/
structure XsdResult where
  errors : Option (List String)
deriving DecidableEq, Repr

/-- The global `xmllint`: `validateXML` takes the XML and the schema text
and returns a result or throws. -/
structure Xmllint where
  validateXML : String → String → Except JsError XsdResult

/-- The state of the page: `schemaCache` (line 14, the latest entry of a URL
first), and the logs of the URLs passed to `fetch`, of the URLs passed to
`loadSchema` and of the arguments passed to `xmllint.validateXML`. -/
structure PageState where
  schemaCache : List (String × String)
  fetchCalls : List String
  loadSchemaCalls : List String
  xmllintCalls : List (String × String)
deriving DecidableEq, Repr

/-- The page state after loading the script: an empty cache, no call. -/
def PageState.initial : PageState :=
  { schemaCache := [], fetchCalls := [], loadSchemaCalls := [], xmllintCalls := [] }

/-- JavaScript truthiness of a value that is a string or `undefined`. -/
def truthy (value : Option String) : Bool :=
  match value with
  | none => false
  | some s => s != ""

/-- Lines 17-21: the part of `loadSchema` after a cache miss. -/
def fetchSchema (fetch : Fetch) (url : String) (state : PageState) :
    Except JsError String × PageState :=
  let fetched := { state with fetchCalls := state.fetchCalls ++ [url] }
  match fetch state.fetchCalls url with
  | .rejected error => (.error error, fetched)
  | .response ok body =>
    if !ok then
      (.error ⟨"Impossible de charger le schéma XSD"⟩, fetched)
    else
      match body with
      | .error error => (.error error, fetched)
      | .ok text => (.ok text, { fetched with schemaCache := (url, text) :: fetched.schemaCache })

/-- Lines 15-22: `loadSchema`. `schemaCache[url]` is the lookup of the URL
(for a URL that is no property name of `Object.prototype`). -/
def loadSchema (fetch : Fetch) (url : String) (state : PageState) :
    Except JsError String × PageState :=
  let state := { state with loadSchemaCalls := state.loadSchemaCalls ++ [url] }
  match state.schemaCache.lookup url with
  | some text => if truthy (some text) then (.ok text, state) else fetchSchema fetch url state
  | none => fetchSchema fetch url state

/-- ECMAScript `WhiteSpace` and `LineTerminator` code points, the ones
`String.prototype.trim` removes. -/
def isJsWhiteSpace (c : Char) : Bool :=
  c.toNat = 0x09 || c.toNat = 0x0A || c.toNat = 0x0B || c.toNat = 0x0C || c.toNat = 0x0D ||
  c.toNat = 0x20 || c.toNat = 0xA0 || c.toNat = 0x1680 ||
  (0x2000 ≤ c.toNat && c.toNat ≤ 0x200A) ||
  c.toNat = 0x2028 || c.toNat = 0x2029 || c.toNat = 0x202F || c.toNat = 0x205F ||
  c.toNat = 0x3000 || c.toNat = 0xFEFF

/-- Line 201: `!xmlString.trim()`, true when the text holds white space
only. -/
def isBlank (xmlString : String) : Bool :=
  xmlString.data.all isJsWhiteSpace

/-- Line 213: `schemaUrl`, `null` as `none`. -/
def selectSchemaUrl (xmlString : String) : Option String :=
  if includes xmlString "CstmrCdtTrfInitn" then some SCHEMA_URLS.credit
  else if includes xmlString "CstmrDrctDbtInitn" then some SCHEMA_URLS.debit
  else none

/-- Lines 213-220: the body of the `try` block of the submit handler; it
yields the value of `result` at the end of the block, or the error
thrown. -/
def xsdValidation (fetch : Fetch) (xmllint : Xmllint) (xmlString : String)
    (structuralResult : ValidationResult) (state : PageState) :
    Except JsError ValidationResult × PageState :=
  let schemaUrl := selectSchemaUrl xmlString
  if truthy schemaUrl then
    match schemaUrl with
    | none => (.ok structuralResult, state)
    | some schemaUrl =>
      match loadSchema fetch schemaUrl state with
      | (.error err, state) => (.error err, state)
      | (.ok xsdText, state) =>
        let state := { state with xmllintCalls := state.xmllintCalls ++ [(xmlString, xsdText)] }
        match xmllint.validateXML xmlString xsdText with
        | .error err => (.error err, state)
        | .ok xsdRes =>
          match xsdRes.errors with
          | none => (.ok structuralResult, state)
          | some errors =>
            if errors.length ≠ 0 then
              (.ok { valid := false
                     message := "Erreurs de validation XSD :\n" ++ "\n".intercalate errors
                     details := none }, state)
            else
              (.ok structuralResult, state)
  else
    (.ok structuralResult, state)

/-- What the submit handler has when it starts rendering (line 226): the
notice for a blank input, or the value of `result`. -/
inductive SubmitOutcome where
  | blank
  | validated (result : ValidationResult)
deriving DecidableEq, Repr

/-- Lines 198-224: the submit handler up to the rendering. `parse` is
`DOMParser.parseFromString(_, "text/xml")`, `xmllint` is `none` when
`typeof xmllint` is `'undefined'`. -/
def submit (parse : String → XmlDocument) (fetch : Fetch) (xmllint : Option Xmllint)
    (xmlString : String) (state : PageState) : SubmitOutcome × PageState :=
  if isBlank xmlString then
    (.blank, state)
  else
    let structuralResult := validateXML (parse xmlString)
    match structuralResult.valid, xmllint with
    | true, some xmllint =>
      match xsdValidation fetch xmllint xmlString structuralResult state with
      | (.ok result, state) => (.validated result, state)
      | (.error err, state) =>
        (.validated { valid := false
                      message := "Erreur de validation XSD : " ++ err.message
                      details := none }, state)
    | _, _ => (.validated structuralResult, state)

/-! ## Sample documents -/

/-- An element without namespace declaration of its own. -/
def el (tagName : String) (childNodes : List XmlNode) : XmlNode :=
  .element tagName none childNodes

/-- An element whose only child is a text node. -/
def leaf (tagName : String) (data : String) : XmlNode :=
  .element tagName none [.text data]

/-- A document whose root is a `Document` element in the given namespace. -/
def documentOf (uri : String) (childNodes : List XmlNode) : XmlDocument :=
  ⟨some (.element "Document" (some uri) childNodes)⟩

/-- A credit-transfer transaction of Alice. -/
def aliceTx : XmlNode :=
  el "CdtTrfTxInf"
    [ el "Amt" [leaf "InstdAmt" "100.00"],
      el "Cdtr" [leaf "Nm" "Alice"],
      el "CdtrAcct" [el "Id" [leaf "IBAN" "FR7612345"]] ]

/-- A direct-debit transaction of Bob, with its mandate. -/
def bobTx : XmlNode :=
  el "DrctDbtTxInf"
    [ leaf "InstdAmt" "42.00",
      el "DrctDbtTx"
        [ el "MndtRltdInf" [leaf "MndtId" "M-1", leaf "DtOfSgntr" "2020-01-01"] ],
      el "Dbtr" [leaf "Nm" "Bob"],
      el "DbtrAcct" [el "Id" [leaf "IBAN" "DE0012345"]] ]

/-- A group header with both totals. -/
def sampleGrpHdr : XmlNode :=
  el "GrpHdr" [leaf "MsgId" "MSG-1", leaf "NbOfTxs" "1", leaf "CtrlSum" "100.00"]

/-- A minimal valid credit transfer (`pain.001`). -/
def creditDoc : XmlDocument :=
  documentOf "urn:iso:std:iso:20022:tech:xsd:pain.001.001.03"
    [ el "CstmrCdtTrfInitn"
        [ sampleGrpHdr, el "PmtInf" [leaf "PmtInfId" "P-1", aliceTx] ] ]

/-- A minimal valid direct debit (`pain.008`). -/
def debitDoc : XmlDocument :=
  documentOf "urn:iso:std:iso:20022:tech:xsd:pain.008.001.02"
    [ el "CstmrDrctDbtInitn"
        [ sampleGrpHdr, el "PmtInf" [leaf "PmtInfId" "P-2", bobTx] ] ]

/-- A document with both kind markers, a mandate and both kinds of
transaction. -/
def bothMarkersDoc : XmlDocument :=
  documentOf "urn:iso:std:iso:20022:tech:xsd:pain.001.001.03"
    [ el "CstmrCdtTrfInitn" [ sampleGrpHdr, el "PmtInf" [aliceTx] ],
      el "CstmrDrctDbtInitn" [ el "PmtInf" [bobTx] ] ]

/-- A direct debit with nothing but its kind marker. -/
def bareDebitDoc : XmlDocument :=
  ⟨some (.element "Root" (some "urn:iso:std:iso:20022:tech:xsd:pain.008.001.02")
    [el "CstmrDrctDbtInitn" []])⟩

/-- A credit transfer with nothing but its kind marker and a `GrpHdr`. -/
def bareCreditDoc : XmlDocument :=
  documentOf "urn:iso:std:iso:20022:tech:xsd:pain.001.001.03"
    [el "CstmrCdtTrfInitn" [el "GrpHdr" []]]

/-- The document a browser builds for malformed input: a `parsererror`
element holding the diagnostic. -/
def parserErrorDoc : XmlDocument :=
  ⟨some (.element "parsererror" (some "http://www.mozilla.org/newlayout/xml/parsererror.xml")
    [.text "XML Parsing Error: no root element found", leaf "sourcetext" ""])⟩

/-- A credit transfer that also holds a stray `MndtRltdInf` element. -/
def creditWithMandateDoc : XmlDocument :=
  documentOf "urn:iso:std:iso:20022:tech:xsd:pain.001.001.03"
    [ el "CstmrCdtTrfInitn"
        [ sampleGrpHdr,
          el "PmtInf" [aliceTx, el "MndtRltdInf" [leaf "MndtId" "M-9"], bobTx] ] ]

/-- A direct debit with two mandates, the second one without fields, a
second transaction that holds nothing but an empty `Dbtr`, and a stray
credit-transfer transaction. -/
def twoMandatesDoc : XmlDocument :=
  documentOf "urn:iso:std:iso:20022:tech:xsd:pain.008.001.02"
    [ el "CstmrDrctDbtInitn"
        [ sampleGrpHdr,
          el "PmtInf"
            [ bobTx,
              el "DrctDbtTxInf" [el "MndtRltdInf" [], el "Dbtr" []],
              aliceTx ] ] ]

/-- A credit transfer whose only transaction holds its `Cdtr` one level
down, inside another element, and not as a child. -/
def nestedCdtrDoc : XmlDocument :=
  documentOf "urn:iso:std:iso:20022:tech:xsd:pain.001.001.03"
    [ el "CstmrCdtTrfInitn"
        [ sampleGrpHdr,
          el "PmtInf" [el "CdtTrfTxInf" [el "Party" [el "Cdtr" [leaf "Nm" "Zoe"]]]] ] ]

/-- A credit transfer with two `GrpHdr` elements; only the second one holds
the totals. -/
def secondGrpHdrDoc : XmlDocument :=
  documentOf "urn:iso:std:iso:20022:tech:xsd:pain.001.001.03"
    [ el "CstmrCdtTrfInitn"
        [ el "GrpHdr" [leaf "MsgId" "MSG-0"],
          el "GrpHdr" [leaf "NbOfTxs" "1", leaf "CtrlSum" "100.00"],
          el "PmtInf" [aliceTx] ] ]

/-- A credit transfer whose `Cdtr` holds a contact name before its own
`Nm`. -/
def contactNameDoc : XmlDocument :=
  documentOf "urn:iso:std:iso:20022:tech:xsd:pain.001.001.03"
    [ el "CstmrCdtTrfInitn"
        [ sampleGrpHdr,
          el "PmtInf"
            [ el "CdtTrfTxInf"
                [ el "Cdtr" [el "CtctDtls" [leaf "Nm" "Bob"], leaf "Nm" "Alice"] ] ] ] ]

/-- A credit transfer whose totals lie in `PmtInf`, outside its `GrpHdr`. -/
def totalsInPmtInfDoc : XmlDocument :=
  documentOf "urn:iso:std:iso:20022:tech:xsd:pain.001.001.03"
    [ el "CstmrCdtTrfInitn"
        [ el "GrpHdr" [leaf "MsgId" "MSG-1"],
          el "PmtInf" [leaf "NbOfTxs" "1", leaf "CtrlSum" "100.00", aliceTx] ] ]

/-- A valid credit transfer without any transaction element. -/
def noTransactionDoc : XmlDocument :=
  documentOf "urn:iso:std:iso:20022:tech:xsd:pain.001.001.03"
    [ el "CstmrCdtTrfInitn" [sampleGrpHdr, el "PmtInf" []] ]

/-- A well-formed document that holds an element named `parsererror` whose
text has the wording of a missing-element line. -/
def echoedLineDoc : XmlDocument :=
  documentOf "urn:iso:std:iso:20022:tech:xsd:pain.001.001.03"
    [ leaf "parsererror" "\nÉlément requis manquant: CstmrCdtTrfInitn" ]

/-- A payment block with a service level that has no `Cd` and no local
instrument at all. -/
def sparsePaymentDoc : XmlDocument :=
  documentOf "urn:iso:std:iso:20022:tech:xsd:pain.001.001.03"
    [ el "CstmrCdtTrfInitn"
        [ sampleGrpHdr,
          el "PmtInf"
            [ leaf "PmtInfId" "P-1", leaf "PmtMtd" "TRF",
              el "PmtTpInf" [el "SvcLvl" [leaf "Cd" "SEPA"]], aliceTx ],
          el "PmtInf" [ el "PmtTpInf" [el "SvcLvl" []] ] ] ]

/-- A `fetch` that always answers with a non-ok response. -/
def notFoundFetch : Fetch :=
  fun _ _ => .response false (.ok "Not Found")

/-- A `fetch` that always rejects. -/
def offlineFetch : Fetch :=
  fun _ _ => .rejected ⟨"Failed to fetch"⟩

/-- A `fetch` that always answers ok with an empty body. -/
def emptyFetch : Fetch :=
  fun _ _ => .response true (.ok "")

/-- A `fetch` that always answers ok with a schema text. -/
def schemaFetch : Fetch :=
  fun _ _ => .response true (.ok "<xs:schema/>")

/-- A parser that yields the sample credit transfer for every text. -/
def creditParse : String → XmlDocument :=
  fun _ => creditDoc

/-- A parser that yields the bare credit transfer, which is Invalid, for
every text. -/
def bareParse : String → XmlDocument :=
  fun _ => bareCreditDoc

/-- An `xmllint` that reports two errors. -/
def failingLint : Xmllint :=
  ⟨fun _ _ => .ok ⟨some ["line 3: element Amt: not expected", "line 9: missing IBAN"]⟩⟩

/-- An `xmllint` that reports no error. -/
def passingLint : Xmllint :=
  ⟨fun _ _ => .ok ⟨none⟩⟩

/-- An `xmllint` that throws. -/
def throwingLint : Xmllint :=
  ⟨fun _ _ => .error ⟨"out of memory"⟩⟩

/-! ## Auxiliary lemmas -/

theorem foldl_push_eq_map {α β : Type} (f : α → β) (l : List α) (init : List β) :
    l.foldl (fun acc x => acc ++ [f x]) init = init ++ l.map f := by
  induction l generalizing init with
  | nil => simp
  | cons x xs ih => simp [ih]

theorem intercalate_go_data (acc sep : String) (l : List String) :
    (String.intercalate.go acc sep l).data
      = acc.data ++ (l.map (fun a => sep.data ++ a.data)).flatten := by
  induction l generalizing acc with
  | nil => simp [String.intercalate.go]
  | cons a as ih => simp [String.intercalate.go, ih, List.append_assoc]

theorem intercalate_data (sep : String) (l : List String) :
    (sep.intercalate l).data = sep.data.intercalate (l.map String.data) := by
  cases l with
  | nil => simp [String.intercalate, List.intercalate]
  | cons a as =>
    simp only [String.intercalate, intercalate_go_data, List.intercalate, List.map_cons]
    induction as generalizing a with
    | nil => simp
    | cons b bs ih => simp [ih b]

/-- Splitting a newline-joined message gives back the joined lines, when
no line holds a newline. -/
theorem lines_intercalate (l : List String) (hne : l ≠ [])
    (hl : ∀ s ∈ l, '\n' ∉ s.data) : lines ("\n".intercalate l) = l := by
  unfold lines
  rw [intercalate_data]
  have h : ("\n" : String).data = ['\n'] := rfl
  rw [h, List.splitOn_intercalate]
  · simp [List.map_map, Function.comp_def]
  · intro x hx
    simp only [List.mem_map] at hx
    obtain ⟨s, hs, rfl⟩ := hx
    exact hl s hs
  · simpa using hne

/-! ## The stages of `validateXML` -/

theorem hasElement_eq_length_pos (doc : XmlDocument) (name : String) :
    doc.hasElement name = decide ((doc.getElementsByTagName name).length > 0) := by
  unfold XmlDocument.hasElement
  cases doc.getElementsByTagName name <;> simp

theorem hasElement_false_iff (doc : XmlDocument) (name : String) :
    doc.hasElement name = false ↔ doc.getElementsByTagName name = [] := by
  unfold XmlDocument.hasElement
  cases doc.getElementsByTagName name <;> simp

theorem hasElement_true_iff (doc : XmlDocument) (name : String) :
    doc.hasElement name = true ↔ doc.getElementsByTagName name ≠ [] := by
  unfold XmlDocument.hasElement
  cases doc.getElementsByTagName name <;> simp

theorem isCreditTransfer_eq (doc : XmlDocument) :
    isCreditTransfer doc = doc.hasElement "CstmrCdtTrfInitn" := by
  rw [hasElement_eq_length_pos]; rfl

theorem isDirectDebit_eq (doc : XmlDocument) :
    isDirectDebit doc = doc.hasElement "CstmrDrctDbtInitn" := by
  rw [hasElement_eq_length_pos]; rfl

theorem checkRequiredElement_eq (doc : XmlDocument) (errors : List String)
    (element : RequiredElement) :
    checkRequiredElement doc errors element
      = errors ++ (if doc.hasElement element.name then []
          else [missingElementMessage element.name]) := by
  unfold checkRequiredElement
  rw [hasElement_eq_length_pos]
  by_cases h : (doc.getElementsByTagName element.name).length > 0 <;> simp [h]

theorem foldl_checkRequiredElement (doc : XmlDocument) (required : List RequiredElement)
    (init : List String) :
    required.foldl (checkRequiredElement doc) init
      = init ++ ((required.map RequiredElement.name).filter
          (fun name => !doc.hasElement name)).map missingElementMessage := by
  induction required generalizing init with
  | nil => simp
  | cons e es ih =>
    rw [List.foldl_cons, ih, checkRequiredElement_eq]
    by_cases h : doc.hasElement e.name = true
    · simp [h]
    · simp [h]

/-- The error list, as the missing required elements followed by the lines
of the kind-specific checks. -/
theorem validationErrors_eq (doc : XmlDocument) :
    validationErrors doc (isCreditTransfer doc)
      = (missingRequired doc).map missingElementMessage
          ++ kindErrors doc (isCreditTransfer doc) := by
  unfold validationErrors kindErrors missingRequired
  simp only [foldl_checkRequiredElement, List.nil_append]
  have hp := hasElement_eq_length_pos doc "PmtInf"
  have hm := hasElement_eq_length_pos doc "MndtRltdInf"
  cases hct : isCreditTransfer doc
  · by_cases h1 : (doc.getElementsByTagName "PmtInf").length = 0 <;>
      by_cases h2 : (doc.getElementsByTagName "MndtRltdInf").length = 0 <;>
      simp [h1, h2, hp, hm, Nat.pos_iff_ne_zero]
  · by_cases h1 : (doc.getElementsByTagName "PmtInf").length = 0 <;>
      simp [h1, hp, Nat.pos_iff_ne_zero]

/-- What `validateXML` returns once the parser-error, namespace and kind
checks are passed. -/
theorem validateXML_of_reaches (doc : XmlDocument) (h : reachesStructuralChecks doc) :
    validateXML doc =
      if validationErrors doc (isCreditTransfer doc) = [] then
        { valid := true
          message := successMessage (isCreditTransfer doc)
          details := some (extractDetails doc (isCreditTransfer doc) (isDirectDebit doc)) }
      else
        { valid := false
          message := "\n".intercalate (validationErrors doc (isCreditTransfer doc))
          details := none } := by
  obtain ⟨hpe, hns, hkind⟩ := h
  rw [hasElement_false_iff] at hpe
  rw [← isCreditTransfer_eq, ← isDirectDebit_eq] at hkind
  unfold hasSepaNamespace at hns
  unfold validateXML validateXMLTry
  rw [hpe]
  cases hroot : doc.documentElement with
  | none => simp [hroot] at hns
  | some root =>
    simp only [hroot] at hns ⊢
    cases huri : root.namespaceURI with
    | none => simp [huri] at hns
    | some uri =>
      simp only [huri] at hns ⊢
      have hne : (uri == "") = false := by
        cases h : uri == "" with
        | false => rfl
        | true =>
          have : uri = "" := by simpa using h
          subst this
          exact absurd hns (by decide)
      simp only [hne, hns, Bool.not_true, Bool.or_self, Bool.false_eq_true, if_false]
      have hk : (!isCreditTransfer doc && !isDirectDebit doc) = false := by
        rcases hkind with h | h <;> simp [h]
      simp only [hk, Bool.false_eq_true, if_false]
      cases hv : validationErrors doc (isCreditTransfer doc) with
      | nil => simp
      | cons e es => simp

/-- A valid result is only returned after the parser-error, namespace and
kind checks, with an empty error list. -/
theorem reaches_of_valid (doc : XmlDocument) (h : (validateXML doc).valid = true) :
    reachesStructuralChecks doc ∧ validationErrors doc (isCreditTransfer doc) = [] := by
  have key : reachesStructuralChecks doc := by
    unfold reachesStructuralChecks hasSepaNamespace
    rw [hasElement_false_iff, ← isCreditTransfer_eq, ← isDirectDebit_eq]
    unfold validateXML validateXMLTry at h
    cases hpe : doc.getElementsByTagName "parsererror" with
    | cons first rest => simp [hpe] at h
    | nil =>
      simp only [hpe] at h
      cases hroot : doc.documentElement with
      | none => simp [hroot] at h
      | some root =>
        simp only [hroot] at h ⊢
        cases huri : root.namespaceURI with
        | none => simp [huri] at h
        | some uri =>
          simp only [huri] at h ⊢
          by_cases hempty : uri = ""
          · simp [hempty] at h
          by_cases hinc : includes uri sepaNamespace = true
          · refine ⟨trivial, hinc, ?_⟩
            by_cases hk : (!isCreditTransfer doc && !isDirectDebit doc) = true
            · simp [hempty, hinc, hk] at h
            · cases h1 : isCreditTransfer doc <;> cases h2 : isDirectDebit doc <;>
                simp [h1, h2] at hk ⊢
          · simp [hempty, hinc] at h
  refine ⟨key, ?_⟩
  rw [validateXML_of_reaches doc key] at h
  by_contra hne
  simp [hne] at h

/-! ## Validity (C1) -/

theorem filter_map_eq_nil_iff {α β : Type} (p : α → Bool) (f : α → β) (l : List α) :
    (l.filter p).map f = [] ↔ ∀ a ∈ l, p a = false := by
  simp [List.filter_eq_nil_iff]

/-- The error list is empty exactly when every required element, `PmtInf`
and (for a direct debit) `MndtRltdInf` are found. -/
theorem validationErrors_eq_nil_iff (doc : XmlDocument) :
    validationErrors doc (isCreditTransfer doc) = [] ↔
      (doc.hasElement "Document" = true ∧ doc.hasElement "GrpHdr" = true ∧
        doc.hasElement "NbOfTxs" = true ∧ doc.hasElement "CtrlSum" = true ∧
        doc.hasElement (if isCreditTransfer doc then "CstmrCdtTrfInitn" else "CstmrDrctDbtInitn") = true) ∧
      doc.hasElement "PmtInf" = true ∧
      (isCreditTransfer doc = false → doc.hasElement "MndtRltdInf" = true) := by
  rw [validationErrors_eq, List.append_eq_nil]
  unfold missingRequired kindErrors requiredElements
  rw [filter_map_eq_nil_iff]
  cases hct : isCreditTransfer doc <;>
    cases hp : doc.hasElement "PmtInf" <;>
    cases hm : doc.hasElement "MndtRltdInf" <;>
    simp

/-- A result carries details exactly when it is valid. -/
theorem details_isSome_eq_valid (doc : XmlDocument) :
    (validateXML doc).details.isSome = (validateXML doc).valid := by
  unfold validateXML validateXMLTry
  cases hpe : doc.getElementsByTagName "parsererror" with
  | cons first rest => rfl
  | nil =>
    cases hroot : doc.documentElement with
    | none => rfl
    | some root =>
      simp only
      split_ifs <;> rfl

/-- C1: `validateXML` returns a Valid result if and only if the document has
no `parsererror` element, has a root namespace URI containing
"urn:iso:std:iso:20022", contains a `CstmrCdtTrfInitn` or a
`CstmrDrctDbtInitn` element, contains `Document`, `GrpHdr`, `NbOfTxs`,
`CtrlSum` and `PmtInf` elements, and, when it has no `CstmrCdtTrfInitn`,
contains a `MndtRltdInf` element; a Valid result carries details and an
Invalid one does not. -/
theorem validateXML_valid_iff (doc : XmlDocument) :
    ((validateXML doc).valid = true ↔
      doc.hasElement "parsererror" = false ∧
      (∃ root uri, doc.documentElement = some root ∧ root.namespaceURI = some uri ∧
        includes uri "urn:iso:std:iso:20022" = true) ∧
      (doc.hasElement "CstmrCdtTrfInitn" = true ∨ doc.hasElement "CstmrDrctDbtInitn" = true) ∧
      (doc.hasElement "Document" = true ∧ doc.hasElement "GrpHdr" = true ∧
        doc.hasElement "NbOfTxs" = true ∧ doc.hasElement "CtrlSum" = true ∧
        doc.hasElement "PmtInf" = true) ∧
      (doc.hasElement "CstmrCdtTrfInitn" = false → doc.hasElement "MndtRltdInf" = true)) ∧
    (validateXML doc).details.isSome = (validateXML doc).valid := by
  have hns : hasSepaNamespace doc = true ↔
      ∃ root uri, doc.documentElement = some root ∧ root.namespaceURI = some uri ∧
        includes uri "urn:iso:std:iso:20022" = true := by
    unfold hasSepaNamespace sepaNamespace
    cases doc.documentElement with
    | none => simp
    | some root => cases h : root.namespaceURI <;> simp [h]
  constructor
  · constructor
    · intro h
      obtain ⟨hr, he⟩ := reaches_of_valid doc h
      obtain ⟨hpe, hsepa, hkind⟩ := hr
      rw [validationErrors_eq_nil_iff] at he
      obtain ⟨⟨h1, h2, h3, h4, _⟩, h5, h6⟩ := he
      refine ⟨hpe, hns.mp hsepa, hkind, ⟨h1, h2, h3, h4, h5⟩, ?_⟩
      rw [← isCreditTransfer_eq]
      exact h6
    · rintro ⟨hpe, hsepa, hkind, ⟨h1, h2, h3, h4, h5⟩, h6⟩
      have hr : reachesStructuralChecks doc := ⟨hpe, hns.mpr hsepa, hkind⟩
      have he : validationErrors doc (isCreditTransfer doc) = [] := by
        rw [validationErrors_eq_nil_iff]
        refine ⟨⟨h1, h2, h3, h4, ?_⟩, h5, ?_⟩
        · rw [isCreditTransfer_eq]
          cases hc : doc.hasElement "CstmrCdtTrfInitn"
          · rcases hkind with h | h
            · rw [hc] at h; cases h
            · simpa using h
          · simp [hc]
        · rw [isCreditTransfer_eq]; exact h6
      rw [validateXML_of_reaches doc hr, if_pos he]
  · exact details_isSome_eq_valid doc

/-! ## Structural error messages (C2, C3) -/

theorem isMissingElementLine_missingElementMessage (name : String) :
    isMissingElementLine (missingElementMessage name) = true := by
  unfold isMissingElementLine missingElementMessage
  rw [String.data_append, List.isPrefixOf_iff_prefix]
  exact List.prefix_append _ _

theorem kindErrors_subset (doc : XmlDocument) (ct : Bool) :
    ∀ line ∈ kindErrors doc ct,
      line = pmtInfTransferMessage ∨ line = pmtInfDebitMessage ∨ line = mandateMessage := by
  intro line hline
  unfold kindErrors at hline
  cases ct <;> simp at hline <;> tauto

theorem kindErrors_not_missing (doc : XmlDocument) (ct : Bool) :
    ∀ line ∈ kindErrors doc ct, isMissingElementLine line = false := by
  intro line hline
  rcases kindErrors_subset doc ct line hline with h | h | h <;> subst h <;> decide

theorem missingRequired_eq (doc : XmlDocument) :
    missingRequired doc =
      ["Document", "GrpHdr", "NbOfTxs", "CtrlSum",
        if isCreditTransfer doc then "CstmrCdtTrfInitn" else "CstmrDrctDbtInitn"].filter
        (fun name => !doc.hasElement name) := by
  unfold missingRequired requiredElements
  cases isCreditTransfer doc <;> rfl

theorem newline_not_mem_missingElementMessage (doc : XmlDocument) :
    ∀ name ∈ missingRequired doc, '\n' ∉ (missingElementMessage name).data := by
  intro name hname
  rw [missingRequired_eq] at hname
  have hmem := List.mem_of_mem_filter hname
  cases hct : isCreditTransfer doc <;> rw [hct] at hmem <;> simp at hmem <;>
    rcases hmem with h | h | h | h | h <;> subst h <;> decide

theorem newline_not_mem_validationErrors (doc : XmlDocument) :
    ∀ line ∈ validationErrors doc (isCreditTransfer doc), '\n' ∉ line.data := by
  intro line hline
  rw [validationErrors_eq, List.mem_append] at hline
  rcases hline with h | h
  · obtain ⟨name, hname, rfl⟩ := List.mem_map.mp h
    exact newline_not_mem_missingElementMessage doc name hname
  · rcases kindErrors_subset doc _ line h with h | h | h <;> subst h <;> decide

/-- The lines of the message of a document that fails a structural check
are the entries of the error list. -/
theorem lines_message_of_errors (doc : XmlDocument) (h : reachesStructuralChecks doc)
    (he : validationErrors doc (isCreditTransfer doc) ≠ []) :
    (validateXML doc).valid = false ∧ (validateXML doc).details = none ∧
      lines (validateXML doc).message
        = (missingRequired doc).map missingElementMessage
            ++ kindErrors doc (isCreditTransfer doc) := by
  rw [validateXML_of_reaches doc h, if_neg he]
  refine ⟨rfl, rfl, ?_⟩
  simp only
  rw [lines_intercalate _ he (newline_not_mem_validationErrors doc), validationErrors_eq]

/-- C2: a parser-error-free document with the SEPA namespace and a kind
marker that lacks N >= 1 of the required elements (`Document`, `GrpHdr`,
`NbOfTxs`, `CtrlSum`, the kind element) is Invalid; the lines of its message
start with one "Élément requis manquant: <name>" line per missing element, in
that order, the remaining lines are `PmtInf` or `MndtRltdInf` lines, and
exactly N lines of the message are missing-element lines. -/
theorem missing_element_lines (doc : XmlDocument) (missing : List String)
    (hreach : reachesStructuralChecks doc)
    (hmissing : missing =
      ["Document", "GrpHdr", "NbOfTxs", "CtrlSum",
        if doc.hasElement "CstmrCdtTrfInitn" then "CstmrCdtTrfInitn" else "CstmrDrctDbtInitn"].filter
        (fun name => !doc.hasElement name))
    (hN : 1 ≤ missing.length) :
    (validateXML doc).valid = false ∧
    ∃ rest : List String,
      lines (validateXML doc).message
        = missing.map (fun name => "Élément requis manquant: " ++ name) ++ rest ∧
      (∀ line ∈ rest, line = pmtInfTransferMessage ∨ line = pmtInfDebitMessage ∨
        line = mandateMessage) ∧
      (∀ line ∈ rest, isMissingElementLine line = false) ∧
      (lines (validateXML doc).message).countP isMissingElementLine = missing.length := by
  have hm : missing = missingRequired doc := by
    rw [hmissing, missingRequired_eq, isCreditTransfer_eq]
  have he : validationErrors doc (isCreditTransfer doc) ≠ [] := by
    rw [validationErrors_eq, ← hm]
    cases missing with
    | nil => simp at hN
    | cons a as => simp
  obtain ⟨hv, _, hl⟩ := lines_message_of_errors doc hreach he
  refine ⟨hv, kindErrors doc (isCreditTransfer doc), ?_, kindErrors_subset doc _,
    kindErrors_not_missing doc _, ?_⟩
  · rw [hl, ← hm]; rfl
  · rw [hl, ← hm, List.countP_append, List.countP_map]
    have h1 : List.countP (isMissingElementLine ∘ missingElementMessage) missing
        = missing.length := by
      rw [List.countP_eq_length]
      intro a _
      exact isMissingElementLine_missingElementMessage a
    have h2 : List.countP isMissingElementLine (kindErrors doc (isCreditTransfer doc))
        = 0 := by
      rw [List.countP_eq_zero]
      intro a ha
      simp [kindErrors_not_missing doc _ a ha]
    rw [h1, h2]; rfl

/-- Witness of C2: a direct debit holding only its kind marker lacks four
required elements. -/
theorem missing_element_lines_witness :
    reachesStructuralChecks bareDebitDoc ∧
    (validateXML bareDebitDoc).valid = false ∧
    ∃ rest : List String,
      lines (validateXML bareDebitDoc).message
        = ["Document", "GrpHdr", "NbOfTxs", "CtrlSum"].map
            (fun name => "Élément requis manquant: " ++ name) ++ rest ∧
      (∀ line ∈ rest, line = pmtInfTransferMessage ∨ line = pmtInfDebitMessage ∨
        line = mandateMessage) ∧
      (∀ line ∈ rest, isMissingElementLine line = false) ∧
      (lines (validateXML bareDebitDoc).message).countP isMissingElementLine
        = ["Document", "GrpHdr", "NbOfTxs", "CtrlSum"].length :=
  ⟨by decide,
    missing_element_lines bareDebitDoc ["Document", "GrpHdr", "NbOfTxs", "CtrlSum"]
      (by decide) (by decide) (by decide)⟩

theorem lines_single (s : String) (h : '\n' ∉ s.data) : lines s = [s] := by
  have := lines_intercalate [s] (by simp) (by simpa using h)
  simpa [String.intercalate, String.intercalate.go] using this

theorem mandateMessage_not_mem_credit_lines (doc : XmlDocument)
    (hreach : reachesStructuralChecks doc) (hct : isCreditTransfer doc = true) :
    mandateMessage ∉ lines (validateXML doc).message := by
  by_cases he : validationErrors doc (isCreditTransfer doc) = []
  · rw [validateXML_of_reaches doc hreach, if_pos he, hct]
    simp only
    rw [lines_single _ (by decide)]
    decide
  · obtain ⟨_, _, hl⟩ := lines_message_of_errors doc hreach he
    rw [hl, hct, List.mem_append]
    rintro (h | h)
    · obtain ⟨name, _, hname⟩ := List.mem_map.mp h
      have h1 := isMissingElementLine_missingElementMessage name
      rw [hname] at h1
      exact absurd h1 (by decide)
    · unfold kindErrors at h
      simp at h
      exact absurd h.2 (by decide)

/-- C3: a parser-error-free document with the SEPA namespace, a
`CstmrDrctDbtInitn` and no `CstmrCdtTrfInitn` element that has no
`MndtRltdInf` element is Invalid, and the lines of its message are the
missing-required-element lines, then the `PmtInf` line when no `PmtInf`
exists, then the mandate line as the last one; when the document has a
`CstmrCdtTrfInitn` element instead, no line of its message is the mandate
line. -/
theorem mandate_error_last (doc : XmlDocument)
    (hpe : doc.hasElement "parsererror" = false) (hns : hasSepaNamespace doc = true) :
    (doc.hasElement "CstmrDrctDbtInitn" = true → doc.hasElement "CstmrCdtTrfInitn" = false →
      doc.hasElement "MndtRltdInf" = false →
        (validateXML doc).valid = false ∧
        lines (validateXML doc).message
          = ((["Document", "GrpHdr", "NbOfTxs", "CtrlSum", "CstmrDrctDbtInitn"].filter
                (fun name => !doc.hasElement name)).map
                (fun name => "Élément requis manquant: " ++ name)
              ++ (if doc.hasElement "PmtInf" then [] else [pmtInfDebitMessage]))
            ++ [mandateMessage] ∧
        (lines (validateXML doc).message).getLast? = some mandateMessage) ∧
    (doc.hasElement "CstmrCdtTrfInitn" = true →
      mandateMessage ∉ lines (validateXML doc).message) := by
  constructor
  · intro hdd hct hm
    have hreach : reachesStructuralChecks doc := ⟨hpe, hns, Or.inr hdd⟩
    have hct' : isCreditTransfer doc = false := by rw [isCreditTransfer_eq]; exact hct
    have he : validationErrors doc (isCreditTransfer doc) ≠ [] := by
      rw [validationErrors_eq, hct']
      unfold kindErrors
      simp [hm]
    obtain ⟨hv, _, hl⟩ := lines_message_of_errors doc hreach he
    have hl' : lines (validateXML doc).message
          = ((["Document", "GrpHdr", "NbOfTxs", "CtrlSum", "CstmrDrctDbtInitn"].filter
                (fun name => !doc.hasElement name)).map
                (fun name => "Élément requis manquant: " ++ name)
              ++ (if doc.hasElement "PmtInf" then [] else [pmtInfDebitMessage]))
            ++ [mandateMessage] := by
      have hk : kindErrors doc false
          = (if doc.hasElement "PmtInf" then [] else [pmtInfDebitMessage])
              ++ [mandateMessage] := by
        unfold kindErrors
        simp [hm]
      rw [hl, missingRequired_eq, hct', hk, List.append_assoc]
      rfl
    refine ⟨hv, hl', ?_⟩
    rw [hl', List.getLast?_append]
    rfl
  · intro hct
    exact mandateMessage_not_mem_credit_lines doc ⟨hpe, hns, Or.inl hct⟩
      (by rw [isCreditTransfer_eq]; exact hct)

/-- Witness of C3: the bare direct debit (first part) and the bare credit
transfer (second part). -/
theorem mandate_error_last_witness :
    ((validateXML bareDebitDoc).valid = false ∧
      (lines (validateXML bareDebitDoc).message).getLast? = some mandateMessage) ∧
    mandateMessage ∉ lines (validateXML bareCreditDoc).message :=
  ⟨⟨((mandate_error_last bareDebitDoc (by decide) (by decide)).1
        (by decide) (by decide) (by decide)).1,
     ((mandate_error_last bareDebitDoc (by decide) (by decide)).1
        (by decide) (by decide) (by decide)).2.2⟩,
   (mandate_error_last bareCreditDoc (by decide) (by decide)).2 (by decide)⟩

/-! ## Early returns (C4, C5) -/

theorem includes_append_right (a b : String) : includes (a ++ b) b = true := by
  unfold includes
  rw [List.any_eq_true]
  refine ⟨b.data, ?_, ?_⟩
  · rw [List.mem_tails, String.data_append]
    exact List.suffix_append _ _
  · rw [List.isPrefixOf_iff_prefix]

/-- What `validateXML` returns for a parser-error-free document whose
root has no SEPA namespace URI. -/
theorem validateXML_notSepa (doc : XmlDocument) (root : XmlNode)
    (hpe : doc.hasElement "parsererror" = false) (hroot : doc.documentElement = some root)
    (hns : hasSepaNamespace doc = false) :
    validateXML doc = { valid := false, message := notSepaMessage, details := none } := by
  rw [hasElement_false_iff] at hpe
  unfold hasSepaNamespace at hns
  unfold validateXML validateXMLTry
  rw [hpe]
  simp only [hroot] at hns ⊢
  cases huri : root.namespaceURI with
  | none => simp
  | some uri =>
    simp only [huri] at hns
    simp [hns]

/-- What `validateXML` returns for a parser-error-free document with the
SEPA namespace and neither kind marker. -/
theorem validateXML_noKind (doc : XmlDocument)
    (hpe : doc.hasElement "parsererror" = false) (hns : hasSepaNamespace doc = true)
    (hct : doc.hasElement "CstmrCdtTrfInitn" = false)
    (hdd : doc.hasElement "CstmrDrctDbtInitn" = false) :
    validateXML doc = { valid := false, message := noKindMessage, details := none } := by
  rw [hasElement_false_iff] at hpe
  rw [← isCreditTransfer_eq] at hct
  rw [← isDirectDebit_eq] at hdd
  unfold hasSepaNamespace at hns
  unfold validateXML validateXMLTry
  rw [hpe]
  cases hroot : doc.documentElement with
  | none => simp [hroot] at hns
  | some root =>
    simp only [hroot] at hns ⊢
    cases huri : root.namespaceURI with
    | none => simp [huri] at hns
    | some uri =>
      simp only [huri] at hns ⊢
      have hne : (uri == "") = false := by
        cases h : uri == "" with
        | false => rfl
        | true =>
          have : uri = "" := by simpa using h
          subst this
          exact absurd hns (by decide)
      simp [hne, hns, hct, hdd]

/-- C4: for a parser-error-free document whose root namespace URI is absent
or lacks "urn:iso:std:iso:20022", `validateXML` returns Invalid with the
"not a valid SEPA file" message; with the namespace but neither
`CstmrCdtTrfInitn` nor `CstmrDrctDbtInitn`, it returns Invalid with a
different message that extends the first one and names both tags. Neither
message has a missing-element line. -/
theorem not_sepa_messages (doc : XmlDocument) (root : XmlNode)
    (hpe : doc.hasElement "parsererror" = false) (hroot : doc.documentElement = some root) :
    ((root.namespaceURI = none ∨
        ∃ uri, root.namespaceURI = some uri ∧ includes uri "urn:iso:std:iso:20022" = false) →
      validateXML doc =
        { valid := false
          message := "Le fichier ne semble pas être un fichier SEPA valide"
          details := none } ∧
      lines (validateXML doc).message = [(validateXML doc).message] ∧
      isMissingElementLine (validateXML doc).message = false) ∧
    ((∃ uri, root.namespaceURI = some uri ∧ includes uri "urn:iso:std:iso:20022" = true) →
      doc.hasElement "CstmrCdtTrfInitn" = false → doc.hasElement "CstmrDrctDbtInitn" = false →
      (validateXML doc).valid = false ∧ (validateXML doc).details = none ∧
      (validateXML doc).message ≠ "Le fichier ne semble pas être un fichier SEPA valide" ∧
      includes (validateXML doc).message
        "Le fichier ne semble pas être un fichier SEPA valide" = true ∧
      includes (validateXML doc).message "CstmrCdtTrfInitn" = true ∧
      includes (validateXML doc).message "CstmrDrctDbtInitn" = true ∧
      lines (validateXML doc).message = [(validateXML doc).message] ∧
      isMissingElementLine (validateXML doc).message = false) := by
  constructor
  · intro h
    have hns : hasSepaNamespace doc = false := by
      unfold hasSepaNamespace sepaNamespace
      rw [hroot]
      rcases h with h | ⟨uri, h, hinc⟩
      · simp [h]
      · simp [h, hinc]
    rw [validateXML_notSepa doc root hpe hroot hns]
    refine ⟨rfl, ?_, by decide⟩
    exact lines_single _ (by decide)
  · rintro ⟨uri, h, hinc⟩ hct hdd
    have hns : hasSepaNamespace doc = true := by
      unfold hasSepaNamespace sepaNamespace
      rw [hroot]
      simp [h, hinc]
    rw [validateXML_noKind doc hpe hns hct hdd]
    refine ⟨rfl, rfl, by decide, by decide, by decide, by decide, ?_, by decide⟩
    exact lines_single _ (by decide)

/-- Witness of C4: a root without namespace, and a SEPA root without kind
marker. -/
theorem not_sepa_messages_witness :
    (validateXML ⟨some (el "Document" [el "CstmrCdtTrfInitn" []])⟩).message
        = "Le fichier ne semble pas être un fichier SEPA valide" ∧
    (validateXML (documentOf "urn:iso:std:iso:20022:tech:xsd:pain.001.001.03"
        [el "GrpHdr" []])).valid = false :=
  ⟨congrArg ValidationResult.message
      (((not_sepa_messages ⟨some (el "Document" [el "CstmrCdtTrfInitn" []])⟩
        (el "Document" [el "CstmrCdtTrfInitn" []]) (by decide) rfl).1 (Or.inl rfl)).1),
   ((not_sepa_messages (documentOf "urn:iso:std:iso:20022:tech:xsd:pain.001.001.03"
        [el "GrpHdr" []])
      (.element "Document" (some "urn:iso:std:iso:20022:tech:xsd:pain.001.001.03")
        [el "GrpHdr" []]) (by decide) rfl).2
      ⟨_, rfl, by decide⟩ (by decide) (by decide)).1⟩

/-- C5: when the document has a `parsererror` element, `validateXML`
returns Invalid with the message "Erreur de format XML: " followed by the
text content of the first such element, so the message contains that text;
two documents whose first `parsererror` elements have the same text get the
same result, whatever else they contain. -/
theorem parser_error_short_circuits (doc doc' : XmlDocument) (first first' : XmlNode)
    (rest rest' : List XmlNode)
    (h : doc.getElementsByTagName "parsererror" = first :: rest)
    (h' : doc'.getElementsByTagName "parsererror" = first' :: rest')
    (htext : first'.textContent = first.textContent) :
    validateXML doc =
      { valid := false
        message := "Erreur de format XML: " ++ first.textContent
        details := none } ∧
    includes (validateXML doc).message first.textContent = true ∧
    validateXML doc' = validateXML doc := by
  have key : ∀ (d : XmlDocument) (f : XmlNode) (r : List XmlNode),
      d.getElementsByTagName "parsererror" = f :: r →
      validateXML d =
        { valid := false
          message := "Erreur de format XML: " ++ f.textContent
          details := none } := by
    intro d f r hd
    unfold validateXML validateXMLTry
    rw [hd]
  rw [key doc first rest h, key doc' first' rest' h', htext]
  exact ⟨rfl, includes_append_right _ _, rfl⟩

/-- Witness of C5: a parser-error document against a valid credit transfer
with a `parsererror` element of the same text appended. -/
theorem parser_error_short_circuits_witness :
    validateXML parserErrorDoc =
      { valid := false
        message := "Erreur de format XML: XML Parsing Error: no root element found"
        details := none } ∧
    validateXML (documentOf "urn:iso:std:iso:20022:tech:xsd:pain.001.001.03"
        [ el "CstmrCdtTrfInitn" [sampleGrpHdr, el "PmtInf" [aliceTx]],
          leaf "parsererror" "XML Parsing Error: no root element found" ])
      = validateXML parserErrorDoc :=
  ⟨(parser_error_short_circuits parserErrorDoc
      (documentOf "urn:iso:std:iso:20022:tech:xsd:pain.001.001.03"
        [ el "CstmrCdtTrfInitn" [sampleGrpHdr, el "PmtInf" [aliceTx]],
          leaf "parsererror" "XML Parsing Error: no root element found" ])
      _ _ _ _ rfl rfl (by decide)).1,
   (parser_error_short_circuits parserErrorDoc
      (documentOf "urn:iso:std:iso:20022:tech:xsd:pain.001.001.03"
        [ el "CstmrCdtTrfInitn" [sampleGrpHdr, el "PmtInf" [aliceTx]],
          leaf "parsererror" "XML Parsing Error: no root element found" ])
      _ _ _ _ rfl rfl (by decide)).2.2⟩

/-! ## Kind priority and mandates (C6, C7, C8) -/

/-- The details of a valid result are the extracted ones. -/
theorem details_of_valid (doc : XmlDocument) (h : (validateXML doc).valid = true) :
    (validateXML doc).message = successMessage (isCreditTransfer doc) ∧
    (validateXML doc).details
      = some (extractDetails doc (isCreditTransfer doc) (isDirectDebit doc)) := by
  obtain ⟨hr, he⟩ := reaches_of_valid doc h
  rw [validateXML_of_reaches doc hr, if_pos he]
  exact ⟨rfl, rfl⟩

theorem extractTransactions_eq (doc : XmlDocument) (ct : Bool) :
    extractTransactions doc ct =
      if ct then (doc.getElementsByTagName "CdtTrfTxInf").map creditTransaction
      else (doc.getElementsByTagName "DrctDbtTxInf").map debitTransaction := by
  unfold extractTransactions
  cases ct <;> simp [foldl_push_eq_map]

theorem extractMandates_eq (doc : XmlDocument) (dd : Bool) :
    extractMandates doc dd =
      if dd then (doc.getElementsByTagName "MndtRltdInf").map mandateDetails else [] := by
  unfold extractMandates
  cases dd <;> simp [foldl_push_eq_map]

theorem extractPayments_eq (doc : XmlDocument) :
    extractPayments doc = (doc.getElementsByTagName "PmtInf").map paymentDetails := by
  unfold extractPayments
  simp [foldl_push_eq_map]

/-- C6: a document that contains both a `CstmrCdtTrfInitn` and a
`CstmrDrctDbtInitn` element is treated as a credit transfer: the fifth
required element is `CstmrCdtTrfInitn`; once the parser-error and namespace
checks are passed it is Valid exactly when `Document`, `GrpHdr`, `NbOfTxs`,
`CtrlSum` and `PmtInf` exist (`MndtRltdInf` plays no part and the mandate
line is never reported) and a missing `PmtInf` is reported in the transfer
wording; a Valid result has the credit-transfer message and one transaction
per `CdtTrfTxInf` element. -/
theorem both_markers_credit_transfer (doc : XmlDocument)
    (hct : doc.hasElement "CstmrCdtTrfInitn" = true)
    (_hdd : doc.hasElement "CstmrDrctDbtInitn" = true) :
    requiredElements (isCreditTransfer doc) =
      [⟨"Document", "element"⟩, ⟨"GrpHdr", "element"⟩, ⟨"NbOfTxs", "element"⟩,
        ⟨"CtrlSum", "element"⟩, ⟨"CstmrCdtTrfInitn", "element"⟩] ∧
    (doc.hasElement "parsererror" = false → hasSepaNamespace doc = true →
      ((validateXML doc).valid = true ↔
        doc.hasElement "Document" = true ∧ doc.hasElement "GrpHdr" = true ∧
        doc.hasElement "NbOfTxs" = true ∧ doc.hasElement "CtrlSum" = true ∧
        doc.hasElement "PmtInf" = true) ∧
      mandateMessage ∉ lines (validateXML doc).message ∧
      (doc.hasElement "PmtInf" = false →
        (lines (validateXML doc).message).getLast? = some pmtInfTransferMessage ∧
        pmtInfDebitMessage ∉ lines (validateXML doc).message)) ∧
    ((validateXML doc).valid = true →
      (validateXML doc).message = "Le fichier XML SEPA de virement semble valide" ∧
      ∃ details, (validateXML doc).details = some details ∧
        details.transactions
          = (doc.getElementsByTagName "CdtTrfTxInf").map creditTransaction) := by
  have hct' : isCreditTransfer doc = true := by rw [isCreditTransfer_eq]; exact hct
  refine ⟨?_, ?_, ?_⟩
  · rw [hct']; rfl
  · intro hpe hns
    have hreach : reachesStructuralChecks doc := ⟨hpe, hns, Or.inl hct⟩
    refine ⟨?_, mandateMessage_not_mem_credit_lines doc hreach hct', ?_⟩
    · rw [validateXML_of_reaches doc hreach]
      have hiff := validationErrors_eq_nil_iff doc
      rw [hct'] at hiff
      simp only [if_true, hct] at hiff
      by_cases he : validationErrors doc (isCreditTransfer doc) = []
      · rw [if_pos he]
        have := hiff.mp (hct' ▸ he)
        simp only [true_iff]
        exact ⟨this.1.1, this.1.2.1, this.1.2.2.1, this.1.2.2.2.1, this.2.1⟩
      · rw [if_neg he]
        simp only [Bool.false_eq_true, false_iff]
        rintro ⟨h1, h2, h3, h4, h5⟩
        exact he (hct' ▸ hiff.mpr ⟨⟨h1, h2, h3, h4, trivial⟩, h5, by simp⟩)
    · intro hp
      have hk : kindErrors doc true = [pmtInfTransferMessage] := by
        unfold kindErrors
        simp [hp]
      have he : validationErrors doc (isCreditTransfer doc) ≠ [] := by
        rw [validationErrors_eq, hct', hk]
        simp
      obtain ⟨_, _, hl⟩ := lines_message_of_errors doc hreach he
      rw [hl, hct', hk]
      constructor
      · rw [List.getLast?_append]; rfl
      · rw [List.mem_append]
        rintro (h | h)
        · obtain ⟨name, _, hname⟩ := List.mem_map.mp h
          have h1 := isMissingElementLine_missingElementMessage name
          rw [hname] at h1
          exact absurd h1 (by decide)
        · simp at h
          exact absurd h (by decide)
  · intro hv
    obtain ⟨hm, hd⟩ := details_of_valid doc hv
    rw [hm, hd, hct']
    refine ⟨by decide, _, rfl, ?_⟩
    simp only [extractDetails]
    rw [extractTransactions_eq]
    rfl

/-- Witness of C6: the sample document with both markers. -/
theorem both_markers_credit_transfer_witness :
    (validateXML bothMarkersDoc).valid = true ∧
    (validateXML bothMarkersDoc).message = "Le fichier XML SEPA de virement semble valide" ∧
    ∃ details, (validateXML bothMarkersDoc).details = some details ∧
      details.transactions
        = (bothMarkersDoc.getElementsByTagName "CdtTrfTxInf").map creditTransaction :=
  ⟨by decide,
    (both_markers_credit_transfer bothMarkersDoc (by decide) (by decide)).2.2 (by decide)⟩

/-- Counterexample to C7 as stated: the sample document with both markers
has a `CstmrCdtTrfInitn` element and is Valid with the credit-transfer
message, yet its `details.mandates` is not empty. -/
theorem mandates_credit_transfer_counterexample :
    bothMarkersDoc.hasElement "CstmrCdtTrfInitn" = true ∧
    (validateXML bothMarkersDoc).valid = true ∧
    (validateXML bothMarkersDoc).message = "Le fichier XML SEPA de virement semble valide" ∧
    (validateXML bothMarkersDoc).details.map Details.mandates
      = some [{ mandateId := some "M-1", signatureDate := some "2020-01-01",
                sequenceType := none }] := by
  decide

/-- C7 (amended): mandates are extracted exactly when the document has a
`CstmrDrctDbtInitn` element. For a Valid document without such an element
(a credit transfer) `details.mandates` is empty whatever `MndtRltdInf`
elements it contains; for a Valid document with one, also when a
`CstmrCdtTrfInitn` element makes it a credit transfer, `details.mandates` has
one entry per `MndtRltdInf` element. -/
theorem mandates_iff_direct_debit_marker (doc : XmlDocument) (details : Details)
    (hv : (validateXML doc).valid = true)
    (hd : (validateXML doc).details = some details) :
    (doc.hasElement "CstmrDrctDbtInitn" = false → details.mandates = []) ∧
    (doc.hasElement "CstmrDrctDbtInitn" = true →
      details.mandates = (doc.getElementsByTagName "MndtRltdInf").map mandateDetails) := by
  obtain ⟨_, hd'⟩ := details_of_valid doc hv
  rw [hd'] at hd
  have hd'' := (Option.some.inj hd).symm
  subst hd''
  simp only [extractDetails]
  rw [extractMandates_eq, isDirectDebit_eq]
  constructor
  · intro h; simp [h]
  · intro h; simp [h]

/-- Witness of C7 (amended): a credit transfer without `CstmrDrctDbtInitn`
element that holds a `MndtRltdInf` element. -/
theorem mandates_iff_direct_debit_marker_witness :
    (validateXML creditWithMandateDoc).valid = true ∧
    creditWithMandateDoc.hasElement "MndtRltdInf" = true ∧
    (extractDetails creditWithMandateDoc (isCreditTransfer creditWithMandateDoc)
      (isDirectDebit creditWithMandateDoc)).mandates = [] :=
  ⟨by decide, by decide,
    (mandates_iff_direct_debit_marker creditWithMandateDoc
      (extractDetails creditWithMandateDoc (isCreditTransfer creditWithMandateDoc)
        (isDirectDebit creditWithMandateDoc))
      (by decide) (by decide)).1 (by decide)⟩

theorem orEmpty_eq (value : Option String) : orEmpty value = value.getD "" := by
  unfold orEmpty
  cases value with
  | none => rfl
  | some s => by_cases h : s = "" <;> simp [h]

theorem defaultsToEmpty_orEmpty (tx : XmlNode) (outer inner : String) :
    DefaultsToEmpty (orEmpty (firstNestedTextContent (tx.getElementsByTagName outer) inner))
      tx outer inner := by
  unfold DefaultsToEmpty firstNestedTextContent firstTextContent
  refine ⟨?_, ?_, ?_⟩
  · intro h; rw [h]; rfl
  · intro block rest h h'; rw [h]; simp only [List.head?_cons]; rw [h']; rfl
  · intro block rest node rest' h h'
    rw [h]; simp only [List.head?_cons]; rw [h']
    simp [orEmpty_eq]

theorem textOrEmpty_orEmpty (tx : XmlNode) (name : String) :
    TextOrEmpty (orEmpty (firstTextContent (tx.getElementsByTagName name))) tx name := by
  unfold TextOrEmpty firstTextContent
  refine ⟨?_, ?_⟩
  · intro h; rw [h]; rfl
  · intro node rest h; rw [h]; simp [orEmpty_eq]

/-- C8: for a Valid document with a `CstmrDrctDbtInitn` and no
`CstmrCdtTrfInitn` element, `details.mandates` has one entry per
`MndtRltdInf` element, in document order; the entry of the i-th element has
`mandateId`, `signatureDate` and `sequenceType` equal to the text of the
first `MndtId`, `DtOfSgntr` and `AmdmntInd` inside it, each absent when
there is no such element. -/
theorem direct_debit_mandates (doc : XmlDocument) (details : Details)
    (_hct : doc.hasElement "CstmrCdtTrfInitn" = false)
    (hdd : doc.hasElement "CstmrDrctDbtInitn" = true)
    (hv : (validateXML doc).valid = true)
    (hd : (validateXML doc).details = some details) :
    details.mandates.length = (doc.getElementsByTagName "MndtRltdInf").length ∧
    ∀ (i : Nat) (mandate : XmlNode),
      (doc.getElementsByTagName "MndtRltdInf")[i]? = some mandate →
      ∃ entry, details.mandates[i]? = some entry ∧
        entry.mandateId
          = (mandate.getElementsByTagName "MndtId").head?.map XmlNode.textContent ∧
        entry.signatureDate
          = (mandate.getElementsByTagName "DtOfSgntr").head?.map XmlNode.textContent ∧
        entry.sequenceType
          = (mandate.getElementsByTagName "AmdmntInd").head?.map XmlNode.textContent ∧
        (mandate.getElementsByTagName "MndtId" = [] → entry.mandateId = none) ∧
        (mandate.getElementsByTagName "DtOfSgntr" = [] → entry.signatureDate = none) ∧
        (mandate.getElementsByTagName "AmdmntInd" = [] → entry.sequenceType = none) := by
  obtain ⟨_, hd'⟩ := details_of_valid doc hv
  rw [hd'] at hd
  have hd'' := (Option.some.inj hd).symm
  subst hd''
  have hm : (extractDetails doc (isCreditTransfer doc) (isDirectDebit doc)).mandates
      = (doc.getElementsByTagName "MndtRltdInf").map mandateDetails := by
    simp only [extractDetails]
    rw [extractMandates_eq, isDirectDebit_eq, hdd]
    rfl
  rw [hm]
  refine ⟨List.length_map _ _, ?_⟩
  intro i mandate hi
  refine ⟨mandateDetails mandate, ?_, rfl, rfl, rfl, ?_, ?_, ?_⟩
  · rw [List.getElem?_map, hi]; rfl
  · intro h; simp [mandateDetails, firstTextContent, h]
  · intro h; simp [mandateDetails, firstTextContent, h]
  · intro h; simp [mandateDetails, firstTextContent, h]

/-- Witness of C8: the direct debit with two mandates. -/
theorem direct_debit_mandates_witness :
    (validateXML twoMandatesDoc).valid = true ∧
    (extractDetails twoMandatesDoc (isCreditTransfer twoMandatesDoc)
      (isDirectDebit twoMandatesDoc)).mandates.length
      = (twoMandatesDoc.getElementsByTagName "MndtRltdInf").length ∧
    (extractDetails twoMandatesDoc (isCreditTransfer twoMandatesDoc)
      (isDirectDebit twoMandatesDoc)).mandates
      = [ { mandateId := some "M-1", signatureDate := some "2020-01-01", sequenceType := none },
          { mandateId := none, signatureDate := none, sequenceType := none } ] :=
  ⟨by decide,
    (direct_debit_mandates twoMandatesDoc
      (extractDetails twoMandatesDoc (isCreditTransfer twoMandatesDoc)
        (isDirectDebit twoMandatesDoc))
      (by decide) (by decide) (by decide) (by decide)).1,
    by decide⟩

/-! ## Transactions (C9, C10) -/

/-- Counterexample to C9 as stated: the only transaction element of this
Valid credit transfer has no `Cdtr` child, its `Cdtr` lies one level further
down, and the entry has `name = "Zoe"`, not `""`. -/
theorem transaction_name_child_counterexample :
    (validateXML nestedCdtrDoc).valid = true ∧
    (nestedCdtrDoc.getElementsByTagName "CdtTrfTxInf").map
      (fun tx => (tx.childElements "Cdtr").length) = [0] ∧
    (validateXML nestedCdtrDoc).details.map
      (fun details => details.transactions.map TransactionDetails.name) = some ["Zoe"] := by
  decide

/-- C9 (amended): in a Valid result every entry of `details.transactions`
comes from a transaction element `tx` and has four string fields: `name` is
the text of the first `Nm` inside the first `Cdtr` (or `Dbtr`) found anywhere
inside `tx`, `iban` the text of the `IBAN` of the account block (`CdtrAcct`
or `DbtrAcct`), `reference` the text of the `Ustrd` of `RmtInf`, `amount` the
text of `InstdAmt`, and each is `""` when a link of its chain is found
nowhere inside the element searched. -/
theorem transaction_fields_default_empty (doc : XmlDocument) (details : Details)
    (hv : (validateXML doc).valid = true)
    (hd : (validateXML doc).details = some details) :
    ∀ entry ∈ details.transactions,
      ∃ (tx : XmlNode) (party account : String),
        ((party = "Cdtr" ∧ account = "CdtrAcct" ∧ tx ∈ doc.getElementsByTagName "CdtTrfTxInf") ∨
          (party = "Dbtr" ∧ account = "DbtrAcct" ∧
            tx ∈ doc.getElementsByTagName "DrctDbtTxInf")) ∧
        DefaultsToEmpty entry.name tx party "Nm" ∧
        DefaultsToEmpty entry.iban tx account "IBAN" ∧
        DefaultsToEmpty entry.reference tx "RmtInf" "Ustrd" ∧
        TextOrEmpty entry.amount tx "InstdAmt" := by
  obtain ⟨_, hd'⟩ := details_of_valid doc hv
  rw [hd'] at hd
  have hd'' := (Option.some.inj hd).symm
  subst hd''
  intro entry hentry
  simp only [extractDetails] at hentry
  rw [extractTransactions_eq] at hentry
  cases hct : isCreditTransfer doc
  · rw [hct] at hentry
    simp only [Bool.false_eq_true, if_false] at hentry
    obtain ⟨tx, htx, rfl⟩ := List.mem_map.mp hentry
    exact ⟨tx, "Dbtr", "DbtrAcct", Or.inr ⟨rfl, rfl, htx⟩,
      defaultsToEmpty_orEmpty tx "Dbtr" "Nm", defaultsToEmpty_orEmpty tx "DbtrAcct" "IBAN",
      defaultsToEmpty_orEmpty tx "RmtInf" "Ustrd", textOrEmpty_orEmpty tx "InstdAmt"⟩
  · rw [hct] at hentry
    simp only [if_true] at hentry
    obtain ⟨tx, htx, rfl⟩ := List.mem_map.mp hentry
    exact ⟨tx, "Cdtr", "CdtrAcct", Or.inl ⟨rfl, rfl, htx⟩,
      defaultsToEmpty_orEmpty tx "Cdtr" "Nm", defaultsToEmpty_orEmpty tx "CdtrAcct" "IBAN",
      defaultsToEmpty_orEmpty tx "RmtInf" "Ustrd", textOrEmpty_orEmpty tx "InstdAmt"⟩

/-- Witness of C9 (amended): the direct debit whose second transaction has an empty
`Dbtr` and nothing else. -/
theorem transaction_fields_default_empty_witness :
    (validateXML twoMandatesDoc).valid = true ∧
    (extractDetails twoMandatesDoc (isCreditTransfer twoMandatesDoc)
      (isDirectDebit twoMandatesDoc)).transactions
      = [ { name := "Bob", iban := "DE0012345", reference := "", amount := "42.00" },
          { name := "", iban := "", reference := "", amount := "" } ] ∧
    ∀ entry ∈ (extractDetails twoMandatesDoc (isCreditTransfer twoMandatesDoc)
        (isDirectDebit twoMandatesDoc)).transactions,
      ∃ (tx : XmlNode) (party account : String),
        ((party = "Cdtr" ∧ account = "CdtrAcct" ∧
            tx ∈ twoMandatesDoc.getElementsByTagName "CdtTrfTxInf") ∨
          (party = "Dbtr" ∧ account = "DbtrAcct" ∧
            tx ∈ twoMandatesDoc.getElementsByTagName "DrctDbtTxInf")) ∧
        DefaultsToEmpty entry.name tx party "Nm" ∧
        DefaultsToEmpty entry.iban tx account "IBAN" ∧
        DefaultsToEmpty entry.reference tx "RmtInf" "Ustrd" ∧
        TextOrEmpty entry.amount tx "InstdAmt" :=
  ⟨by decide, by decide,
    transaction_fields_default_empty twoMandatesDoc
      (extractDetails twoMandatesDoc (isCreditTransfer twoMandatesDoc)
        (isDirectDebit twoMandatesDoc))
      (by decide) (by decide)⟩

/-- C10: in a Valid result `details.transactions` has one entry per
transaction element, in document order: when the document has a
`CstmrCdtTrfInitn` element, one per `CdtTrfTxInf` element, read from its
`Cdtr` and `CdtrAcct`; otherwise one per `DrctDbtTxInf` element, read from
its `Dbtr` and `DbtrAcct`. The elements of the other tag add nothing. -/
theorem transactions_per_element (doc : XmlDocument) (details : Details)
    (hv : (validateXML doc).valid = true)
    (hd : (validateXML doc).details = some details) :
    (doc.hasElement "CstmrCdtTrfInitn" = true →
      details.transactions.length = (doc.getElementsByTagName "CdtTrfTxInf").length ∧
      details.transactions = (doc.getElementsByTagName "CdtTrfTxInf").map (fun tx =>
        { name := orEmpty (firstNestedTextContent (tx.getElementsByTagName "Cdtr") "Nm")
          iban := orEmpty (firstNestedTextContent (tx.getElementsByTagName "CdtrAcct") "IBAN")
          reference := orEmpty (firstNestedTextContent (tx.getElementsByTagName "RmtInf") "Ustrd")
          amount := orEmpty (firstTextContent (tx.getElementsByTagName "InstdAmt")) })) ∧
    (doc.hasElement "CstmrCdtTrfInitn" = false →
      doc.hasElement "CstmrDrctDbtInitn" = true ∧
      details.transactions.length = (doc.getElementsByTagName "DrctDbtTxInf").length ∧
      details.transactions = (doc.getElementsByTagName "DrctDbtTxInf").map (fun tx =>
        { name := orEmpty (firstNestedTextContent (tx.getElementsByTagName "Dbtr") "Nm")
          iban := orEmpty (firstNestedTextContent (tx.getElementsByTagName "DbtrAcct") "IBAN")
          reference := orEmpty (firstNestedTextContent (tx.getElementsByTagName "RmtInf") "Ustrd")
          amount := orEmpty (firstTextContent (tx.getElementsByTagName "InstdAmt")) })) := by
  obtain ⟨hr, _⟩ := reaches_of_valid doc hv
  obtain ⟨_, hd'⟩ := details_of_valid doc hv
  rw [hd'] at hd
  have hd'' := (Option.some.inj hd).symm
  subst hd''
  have ht : (extractDetails doc (isCreditTransfer doc) (isDirectDebit doc)).transactions
      = if isCreditTransfer doc then
          (doc.getElementsByTagName "CdtTrfTxInf").map creditTransaction
        else (doc.getElementsByTagName "DrctDbtTxInf").map debitTransaction := by
    simp only [extractDetails]
    exact extractTransactions_eq doc _
  rw [ht, isCreditTransfer_eq]
  constructor
  · intro hct
    rw [hct]
    exact ⟨List.length_map _ _, rfl⟩
  · intro hct
    rw [hct]
    refine ⟨?_, List.length_map _ _, rfl⟩
    rcases hr.2.2 with h | h
    · rw [hct] at h; cases h
    · exact h

/-- Witness of C10: the direct debit with two `DrctDbtTxInf` elements and a
stray `CdtTrfTxInf`, and the credit transfer with a stray `DrctDbtTxInf`. -/
theorem transactions_per_element_witness :
    ((validateXML twoMandatesDoc).valid = true ∧
      (twoMandatesDoc.getElementsByTagName "CdtTrfTxInf").length = 1 ∧
      (extractDetails twoMandatesDoc (isCreditTransfer twoMandatesDoc)
        (isDirectDebit twoMandatesDoc)).transactions.length = 2) ∧
    ((validateXML creditWithMandateDoc).valid = true ∧
      (creditWithMandateDoc.getElementsByTagName "DrctDbtTxInf").length = 1 ∧
      (extractDetails creditWithMandateDoc (isCreditTransfer creditWithMandateDoc)
        (isDirectDebit creditWithMandateDoc)).transactions.length = 1) :=
  ⟨⟨by decide, by decide,
      (((transactions_per_element twoMandatesDoc
        (extractDetails twoMandatesDoc (isCreditTransfer twoMandatesDoc)
          (isDirectDebit twoMandatesDoc))
        (by decide) (by decide)).2 (by decide)).2.1).trans (by decide)⟩,
    ⟨by decide, by decide,
      (((transactions_per_element creditWithMandateDoc
        (extractDetails creditWithMandateDoc (isCreditTransfer creditWithMandateDoc)
          (isDirectDebit creditWithMandateDoc))
        (by decide) (by decide)).1 (by decide)).1).trans (by decide)⟩⟩

/-! ## Header and payments (C11, C12) -/

theorem optionalText_firstTextContent (node : XmlNode) (name : String) :
    OptionalText (firstTextContent (node.getElementsByTagName name)) node name := by
  unfold OptionalText firstTextContent
  refine ⟨?_, ?_⟩
  · intro h; rw [h]; rfl
  · intro first rest h; rw [h]; rfl

theorem optionalNestedText_firstNested (node : XmlNode) (outer inner : String) :
    OptionalNestedText (firstNestedTextContent (node.getElementsByTagName outer) inner)
      node outer inner := by
  unfold OptionalNestedText firstNestedTextContent firstTextContent
  refine ⟨?_, ?_, ?_⟩
  · intro h; rw [h]; rfl
  · intro block rest h h'; rw [h]; simp only [List.head?_cons]; rw [h']; rfl
  · intro block rest first rest' h h'; rw [h]; simp only [List.head?_cons]; rw [h']; rfl

/-- A valid document has a `GrpHdr`, and its header is built from the
first one. -/
theorem header_of_valid (doc : XmlDocument) (hv : (validateXML doc).valid = true) :
    ∃ groupHeader rest, doc.getElementsByTagName "GrpHdr" = groupHeader :: rest ∧
      extractHeader doc = HeaderDetails.groupHeader
        (firstTextContent (groupHeader.getElementsByTagName "MsgId"))
        (firstTextContent (groupHeader.getElementsByTagName "CreDtTm"))
        (firstTextContent (groupHeader.getElementsByTagName "NbOfTxs"))
        (firstTextContent (groupHeader.getElementsByTagName "CtrlSum")) := by
  obtain ⟨_, he⟩ := reaches_of_valid doc hv
  have hg := ((validationErrors_eq_nil_iff doc).mp he).1.2.1
  rw [hasElement_true_iff] at hg
  cases hl : doc.getElementsByTagName "GrpHdr" with
  | nil => exact absurd hl hg
  | cons groupHeader rest =>
    refine ⟨groupHeader, rest, rfl, ?_⟩
    unfold extractHeader
    rw [hl]
    rfl

/-- C11: in a Valid result `details.header` is read from the first `GrpHdr`
element of the document only: `msgId`, `creationDate`, `nbOfTxs` and
`ctrlSum` are the text of the first `MsgId`, `CreDtTm`, `NbOfTxs` and
`CtrlSum` element inside it, each absent when it holds no such element; a
second Valid document with the same first `GrpHdr` has the same header,
whatever else the two documents contain. -/
theorem header_from_first_group_header (doc doc' : XmlDocument) (details details' : Details)
    (hv : (validateXML doc).valid = true) (hd : (validateXML doc).details = some details)
    (hv' : (validateXML doc').valid = true)
    (hd' : (validateXML doc').details = some details') :
    (∃ groupHeader rest, doc.getElementsByTagName "GrpHdr" = groupHeader :: rest ∧
      OptionalText details.header.msgId groupHeader "MsgId" ∧
      OptionalText details.header.creationDate groupHeader "CreDtTm" ∧
      OptionalText details.header.nbOfTxs groupHeader "NbOfTxs" ∧
      OptionalText details.header.ctrlSum groupHeader "CtrlSum") ∧
    ((doc'.getElementsByTagName "GrpHdr").head? = (doc.getElementsByTagName "GrpHdr").head? →
      details'.header = details.header) := by
  have e := (details_of_valid doc hv).2
  have e' := (details_of_valid doc' hv').2
  rw [hd] at e
  rw [hd'] at e'
  have h1 : details.header = extractHeader doc := by
    rw [Option.some.inj e]; rfl
  have h2 : details'.header = extractHeader doc' := by
    rw [Option.some.inj e']; rfl
  obtain ⟨g, rest, hg, hh⟩ := header_of_valid doc hv
  obtain ⟨g', rest', hg', hh'⟩ := header_of_valid doc' hv'
  constructor
  · refine ⟨g, rest, hg, ?_⟩
    rw [h1, hh]
    exact ⟨optionalText_firstTextContent g "MsgId", optionalText_firstTextContent g "CreDtTm",
      optionalText_firstTextContent g "NbOfTxs", optionalText_firstTextContent g "CtrlSum"⟩
  · intro hsame
    rw [hg, hg'] at hsame
    simp only [List.head?_cons, Option.some.injEq] at hsame
    rw [h1, h2, hh, hh', hsame]

/-- Witness of C11: the credit transfer with two `GrpHdr` elements against
the one whose totals lie in `PmtInf`; in both the header comes from the
first `GrpHdr` and has no totals. -/
theorem header_from_first_group_header_witness :
    (validateXML secondGrpHdrDoc).valid = true ∧
    (extractDetails secondGrpHdrDoc (isCreditTransfer secondGrpHdrDoc)
      (isDirectDebit secondGrpHdrDoc)).header
      = HeaderDetails.groupHeader (some "MSG-0") none none none ∧
    ∃ groupHeader rest,
      secondGrpHdrDoc.getElementsByTagName "GrpHdr" = groupHeader :: rest ∧
      OptionalText (extractDetails secondGrpHdrDoc (isCreditTransfer secondGrpHdrDoc)
        (isDirectDebit secondGrpHdrDoc)).header.msgId groupHeader "MsgId" ∧
      OptionalText (extractDetails secondGrpHdrDoc (isCreditTransfer secondGrpHdrDoc)
        (isDirectDebit secondGrpHdrDoc)).header.creationDate groupHeader "CreDtTm" ∧
      OptionalText (extractDetails secondGrpHdrDoc (isCreditTransfer secondGrpHdrDoc)
        (isDirectDebit secondGrpHdrDoc)).header.nbOfTxs groupHeader "NbOfTxs" ∧
      OptionalText (extractDetails secondGrpHdrDoc (isCreditTransfer secondGrpHdrDoc)
        (isDirectDebit secondGrpHdrDoc)).header.ctrlSum groupHeader "CtrlSum" :=
  ⟨by decide, by decide,
    (header_from_first_group_header secondGrpHdrDoc totalsInPmtInfDoc
      (extractDetails secondGrpHdrDoc (isCreditTransfer secondGrpHdrDoc)
        (isDirectDebit secondGrpHdrDoc))
      (extractDetails totalsInPmtInfDoc (isCreditTransfer totalsInPmtInfDoc)
        (isDirectDebit totalsInPmtInfDoc))
      (by decide) (by decide) (by decide) (by decide)).1⟩

/-- The `try` block only throws on a document without root element. -/
theorem validateXMLTry_ok_of_root (doc : XmlDocument) (root : XmlNode)
    (hroot : doc.documentElement = some root) :
    validateXMLTry doc = .ok (validateXML doc) := by
  unfold validateXML
  cases h : validateXMLTry doc with
  | ok result => rfl
  | error err =>
    exfalso
    unfold validateXMLTry at h
    cases hpe : doc.getElementsByTagName "parsererror" with
    | cons first rest => simp [hpe] at h
    | nil =>
      simp only [hpe, hroot] at h
      split_ifs at h

/-- A valid document has a root element. -/
theorem root_of_valid (doc : XmlDocument) (hv : (validateXML doc).valid = true) :
    ∃ root, doc.documentElement = some root := by
  obtain ⟨⟨_, hns, _⟩, _⟩ := reaches_of_valid doc hv
  unfold hasSepaNamespace at hns
  cases h : doc.documentElement with
  | none => simp [h] at hns
  | some root => exact ⟨root, rfl⟩

/-- C12: in a Valid result `details.payments` has one entry per `PmtInf`
element, in document order; the entry of a `PmtInf` has `id`, `method`,
`batch`, `sequenceType` and `collectionDate` equal to the text of its first
`PmtInfId`, `PmtMtd`, `BtchBookg`, `SeqTp` and `ReqdColltnDt`, `serviceLevel`
the text of the first `Cd` of its first `SvcLvl` and `localInstrument` the
text of the first `Cd` of its first `LclInstrm`, each absent when a link is
missing; and the result is returned by the `try` block, not by the `catch`
branch. -/
theorem payments_per_element (doc : XmlDocument) (details : Details)
    (hv : (validateXML doc).valid = true)
    (hd : (validateXML doc).details = some details) :
    details.payments.length = (doc.getElementsByTagName "PmtInf").length ∧
    (∀ (i : Nat) (payment : XmlNode),
      (doc.getElementsByTagName "PmtInf")[i]? = some payment →
      ∃ entry, details.payments[i]? = some entry ∧
        OptionalText entry.id payment "PmtInfId" ∧
        OptionalText entry.method payment "PmtMtd" ∧
        OptionalText entry.batch payment "BtchBookg" ∧
        OptionalNestedText entry.serviceLevel payment "SvcLvl" "Cd" ∧
        OptionalNestedText entry.localInstrument payment "LclInstrm" "Cd" ∧
        OptionalText entry.sequenceType payment "SeqTp" ∧
        OptionalText entry.collectionDate payment "ReqdColltnDt") ∧
    validateXMLTry doc = .ok (validateXML doc) := by
  obtain ⟨root, hroot⟩ := root_of_valid doc hv
  have e := (details_of_valid doc hv).2
  rw [hd] at e
  have hp : details.payments = (doc.getElementsByTagName "PmtInf").map paymentDetails := by
    rw [Option.some.inj e]
    simp only [extractDetails]
    exact extractPayments_eq doc
  rw [hp]
  refine ⟨List.length_map _ _, ?_, validateXMLTry_ok_of_root doc root hroot⟩
  intro i payment hi
  refine ⟨paymentDetails payment, ?_, ?_⟩
  · rw [List.getElem?_map, hi]; rfl
  · exact ⟨optionalText_firstTextContent payment "PmtInfId",
      optionalText_firstTextContent payment "PmtMtd",
      optionalText_firstTextContent payment "BtchBookg",
      optionalNestedText_firstNested payment "SvcLvl" "Cd",
      optionalNestedText_firstNested payment "LclInstrm" "Cd",
      optionalText_firstTextContent payment "SeqTp",
      optionalText_firstTextContent payment "ReqdColltnDt"⟩

/-- Witness of C12: two `PmtInf` elements, the second with a `SvcLvl`
without `Cd` and no `LclInstrm`. -/
theorem payments_per_element_witness :
    (validateXML sparsePaymentDoc).valid = true ∧
    (extractDetails sparsePaymentDoc (isCreditTransfer sparsePaymentDoc)
      (isDirectDebit sparsePaymentDoc)).payments
      = [ { id := some "P-1", method := some "TRF", batch := none,
            serviceLevel := some "SEPA", localInstrument := none, sequenceType := none,
            collectionDate := none },
          { id := none, method := none, batch := none, serviceLevel := none,
            localInstrument := none, sequenceType := none, collectionDate := none } ] ∧
    (extractDetails sparsePaymentDoc (isCreditTransfer sparsePaymentDoc)
      (isDirectDebit sparsePaymentDoc)).payments.length
      = (sparsePaymentDoc.getElementsByTagName "PmtInf").length ∧
    validateXMLTry sparsePaymentDoc = .ok (validateXML sparsePaymentDoc) :=
  ⟨by decide, by decide,
    (payments_per_element sparsePaymentDoc
      (extractDetails sparsePaymentDoc (isCreditTransfer sparsePaymentDoc)
        (isDirectDebit sparsePaymentDoc)) (by decide) (by decide)).1,
    (payments_per_element sparsePaymentDoc
      (extractDetails sparsePaymentDoc (isCreditTransfer sparsePaymentDoc)
        (isDirectDebit sparsePaymentDoc)) (by decide) (by decide)).2.2⟩

/-! ## Round trip and shape of the result (C13, C14) -/

mutual
/-- The elements below an element of a subtree belong to the subtree. -/
theorem elements_trans : ∀ (node g : XmlNode), g ∈ node.elements →
    ∀ e, e ∈ g.elements → e ∈ node.elements
  | .text _, g, hg => by simp [XmlNode.elements] at hg
  | .element t ns cs, g, hg => by
    intro e he
    simp only [XmlNode.elements, List.mem_cons] at hg ⊢
    rcases hg with rfl | hg
    · simpa only [XmlNode.elements, List.mem_cons] using he
    · exact Or.inr (elementsList_trans cs g hg e he)
/-- The elements below an element of a forest belong to the forest. -/
theorem elementsList_trans : ∀ (l : List XmlNode) (g : XmlNode), g ∈ elementsList l →
    ∀ e, e ∈ g.elements → e ∈ elementsList l
  | [], g, hg => by simp [elementsList] at hg
  | c :: cs, g, hg => by
    intro e he
    simp only [elementsList, List.mem_append] at hg ⊢
    rcases hg with hg | hg
    · exact Or.inl (elements_trans c g hg e he)
    · exact Or.inr (elementsList_trans cs g hg e he)
end

theorem mem_elements_of_mem_getElementsByTagName (g e : XmlNode) (name : String)
    (h : e ∈ g.getElementsByTagName name) : e ∈ g.elements ∧ e.hasTagName name = true := by
  cases g with
  | text s => simp [XmlNode.getElementsByTagName] at h
  | element t ns cs =>
    simp only [XmlNode.getElementsByTagName, List.mem_filter] at h
    exact ⟨by simp only [XmlNode.elements, List.mem_cons]; exact Or.inr h.1, h.2⟩

/-- An element found inside an element of the document is found by the
search of the whole document. -/
theorem hasElement_of_nested (doc : XmlDocument) (outer inner : String) (g e : XmlNode)
    (hg : g ∈ doc.getElementsByTagName outer) (he : e ∈ g.getElementsByTagName inner) :
    doc.hasElement inner = true := by
  rw [hasElement_true_iff]
  unfold XmlDocument.getElementsByTagName at hg ⊢
  cases hroot : doc.documentElement with
  | none => simp [hroot] at hg
  | some root =>
    simp only [hroot, List.mem_filter] at hg ⊢
    obtain ⟨h1, h2⟩ := mem_elements_of_mem_getElementsByTagName g e inner he
    have hmem : e ∈ root.elements := elements_trans root g hg.1 e h1
    intro hnil
    have : e ∈ List.filter (XmlNode.hasTagName inner) root.elements :=
      List.mem_filter.mpr ⟨hmem, h2⟩
    rw [hnil] at this
    cases this

/-- Counterexample to C13 as stated. The first document has a `GrpHdr`
holding `NbOfTxs` with text "1" and `CtrlSum`, but it is its second `GrpHdr`,
and `details.header.nbOfTxs` is absent. In the second document the `Cdtr`
has an `Nm` with text "Alice", but a contact `Nm` precedes it, and the
transaction name is "Bob". Both documents meet every condition of the claim
and are Valid. -/
theorem round_trip_counterexample :
    (secondGrpHdrDoc.hasElement "parsererror" = false ∧
      secondGrpHdrDoc.documentElement.map (XmlNode.hasTagName "Document") = some true ∧
      hasSepaNamespace secondGrpHdrDoc = true ∧
      (secondGrpHdrDoc.getElementsByTagName "CstmrCdtTrfInitn").length = 1 ∧
      (secondGrpHdrDoc.getElementsByTagName "GrpHdr").map (fun g =>
        ((g.getElementsByTagName "NbOfTxs").map XmlNode.textContent,
          (g.getElementsByTagName "CtrlSum").length)) = [([], 0), (["1"], 1)] ∧
      (secondGrpHdrDoc.getElementsByTagName "PmtInf").length = 1 ∧
      (secondGrpHdrDoc.getElementsByTagName "CdtTrfTxInf").map (fun tx =>
        (tx.getElementsByTagName "Cdtr").map (fun c =>
          (c.getElementsByTagName "Nm").map XmlNode.textContent)) = [[["Alice"]]] ∧
      (validateXML secondGrpHdrDoc).valid = true ∧
      (validateXML secondGrpHdrDoc).details.map (fun details => details.header.nbOfTxs)
        = some none) ∧
    (contactNameDoc.hasElement "parsererror" = false ∧
      contactNameDoc.documentElement.map (XmlNode.hasTagName "Document") = some true ∧
      hasSepaNamespace contactNameDoc = true ∧
      (contactNameDoc.getElementsByTagName "CstmrCdtTrfInitn").length = 1 ∧
      (contactNameDoc.getElementsByTagName "GrpHdr").map (fun g =>
        ((g.getElementsByTagName "NbOfTxs").map XmlNode.textContent,
          (g.getElementsByTagName "CtrlSum").length)) = [(["1"], 1)] ∧
      (contactNameDoc.getElementsByTagName "PmtInf").length = 1 ∧
      (contactNameDoc.getElementsByTagName "CdtTrfTxInf").map (fun tx =>
        (tx.getElementsByTagName "Cdtr").map (fun c =>
          (c.childElements "Nm").map XmlNode.textContent)) = [[["Alice"]]] ∧
      (validateXML contactNameDoc).valid = true ∧
      (validateXML contactNameDoc).details.map (fun details =>
        details.transactions.map TransactionDetails.name) = some ["Bob"]) := by
  decide

/-- C13 (amended): a parser-error-free document whose root is a `Document`
element in a namespace containing "urn:iso:std:iso:20022", that contains a
`CstmrCdtTrfInitn`, a `PmtInf`, a first `GrpHdr` whose first `NbOfTxs` has
text `n` and which holds a `CtrlSum`, and exactly one `CdtTrfTxInf` in which
the first `Nm` inside the first `Cdtr` has text `s`, is Valid with
`details.header.nbOfTxs = n`, one transaction, and that transaction's name
`s`. -/
theorem round_trip_first_elements (doc : XmlDocument) (uri n s : String)
    (childNodes moreHeaders moreCounts moreCreditors moreNames : List XmlNode)
    (groupHeader count tx creditor nameNode : XmlNode)
    (hpe : doc.hasElement "parsererror" = false)
    (hroot : doc.documentElement = some (.element "Document" (some uri) childNodes))
    (huri : includes uri "urn:iso:std:iso:20022" = true)
    (hct : doc.hasElement "CstmrCdtTrfInitn" = true)
    (hg : doc.getElementsByTagName "GrpHdr" = groupHeader :: moreHeaders)
    (hn : groupHeader.getElementsByTagName "NbOfTxs" = count :: moreCounts)
    (hnt : count.textContent = n)
    (hcs : groupHeader.getElementsByTagName "CtrlSum" ≠ [])
    (hp : doc.hasElement "PmtInf" = true)
    (htx : doc.getElementsByTagName "CdtTrfTxInf" = [tx])
    (hcd : tx.getElementsByTagName "Cdtr" = creditor :: moreCreditors)
    (hnm : creditor.getElementsByTagName "Nm" = nameNode :: moreNames)
    (hs : nameNode.textContent = s) :
    (validateXML doc).valid = true ∧
    ∃ details, (validateXML doc).details = some details ∧
      details.header.nbOfTxs = some n ∧
      details.transactions.length = 1 ∧
      details.transactions.head?.map TransactionDetails.name = some s := by
  have hns : hasSepaNamespace doc = true := by
    unfold hasSepaNamespace sepaNamespace
    rw [hroot]
    simpa [XmlNode.namespaceURI] using huri
  have hreach : reachesStructuralChecks doc := ⟨hpe, hns, Or.inl hct⟩
  have hct' : isCreditTransfer doc = true := by rw [isCreditTransfer_eq]; exact hct
  have hdoc : doc.hasElement "Document" = true := by
    rw [hasElement_true_iff]
    unfold XmlDocument.getElementsByTagName
    rw [hroot]
    simp [XmlNode.elements, XmlNode.hasTagName, List.filter_cons]
  have hgm : groupHeader ∈ doc.getElementsByTagName "GrpHdr" := by rw [hg]; simp
  have hgh : doc.hasElement "GrpHdr" = true := by
    rw [hasElement_true_iff, hg]; simp
  have hnb : doc.hasElement "NbOfTxs" = true :=
    hasElement_of_nested doc "GrpHdr" "NbOfTxs" groupHeader count hgm (by rw [hn]; simp)
  have hcsum : doc.hasElement "CtrlSum" = true := by
    cases hl : groupHeader.getElementsByTagName "CtrlSum" with
    | nil => exact absurd hl hcs
    | cons c cs =>
      exact hasElement_of_nested doc "GrpHdr" "CtrlSum" groupHeader c hgm (by rw [hl]; simp)
  have he : validationErrors doc (isCreditTransfer doc) = [] := by
    rw [validationErrors_eq_nil_iff, hct']
    exact ⟨⟨hdoc, hgh, hnb, hcsum, by simpa using hct⟩, hp, by simp⟩
  rw [validateXML_of_reaches doc hreach, if_pos he]
  refine ⟨rfl, _, rfl, ?_, ?_, ?_⟩
  · simp only [extractDetails, extractHeader, hg, List.head?_cons, HeaderDetails.nbOfTxs,
      firstTextContent, hn, Option.map_some', hnt]
  · simp only [extractDetails]
    rw [extractTransactions_eq, hct', if_pos rfl, htx]
    rfl
  · simp only [extractDetails]
    rw [extractTransactions_eq, hct', if_pos rfl, htx]
    simp only [List.map_cons, List.map_nil, List.head?_cons, Option.map_some', creditTransaction,
      firstNestedTextContent, firstTextContent, hcd, hnm, hs, orEmpty_eq, Option.getD_some]

/-- Witness of C13 (amended): the minimal credit transfer of the
specification, `n = "1"`, `CtrlSum = "100.00"`, `s = "Alice"`, IBAN
"FR7612345", amount "100.00". -/
theorem round_trip_first_elements_witness :
    (validateXML creditDoc).valid = true ∧
    ∃ details, (validateXML creditDoc).details = some details ∧
      details.header.nbOfTxs = some "1" ∧
      details.transactions.length = 1 ∧
      details.transactions.head?.map TransactionDetails.name = some "Alice" :=
  round_trip_first_elements creditDoc "urn:iso:std:iso:20022:tech:xsd:pain.001.001.03" "1"
    "Alice" _ [] _ _ _ sampleGrpHdr (leaf "NbOfTxs" "1") aliceTx
    (el "Cdtr" [leaf "Nm" "Alice"]) (leaf "Nm" "Alice")
    (by decide) rfl (by decide) (by decide) rfl rfl rfl
    (fun h => absurd (congrArg List.length h) (by decide)) (by decide) rfl rfl rfl rfl

theorem append_ne_empty_of_left (a b : String) (h : a ≠ "") : a ++ b ≠ "" := by
  intro hab
  apply h
  have hd : (a ++ b).data = [] := by rw [hab]
  rw [String.data_append, List.append_eq_nil] at hd
  exact String.ext hd.1

theorem intercalate_ne_empty (sep : String) (l : List String) (hne : l ≠ [])
    (hl : ∀ s ∈ l, s ≠ "") : sep.intercalate l ≠ "" := by
  cases l with
  | nil => exact absurd rfl hne
  | cons a as =>
    intro h
    have hd : (sep.intercalate (a :: as)).data = [] := by rw [h]
    simp only [String.intercalate, intercalate_go_data, List.append_eq_nil] at hd
    exact hl a (by simp) (String.ext hd.1)

theorem validationErrors_ne_empty (doc : XmlDocument) :
    ∀ line ∈ validationErrors doc (isCreditTransfer doc), line ≠ "" := by
  intro line hline
  rw [validationErrors_eq, List.mem_append] at hline
  rcases hline with h | h
  · obtain ⟨name, _, rfl⟩ := List.mem_map.mp h
    exact append_ne_empty_of_left _ _ (by decide)
  · rcases kindErrors_subset doc _ line h with h | h | h <;> subst h <;> decide

/-- C14: `validateXML` always returns a result: what the `try` block
returns, or, when the block throws, an Invalid result made from the error.
The result is either Invalid with a non-empty message and no details, or
Valid with a non-empty message and a details record (header, payments,
transactions, mandates). -/
theorem result_shape (doc : XmlDocument) :
    (validateXMLTry doc = .ok (validateXML doc) ∨
      ∃ err, validateXMLTry doc = .error err ∧
        validateXML doc =
          { valid := false
            message := "Erreur lors de la validation: " ++ err.message
            details := none }) ∧
    (((validateXML doc).valid = false ∧ (validateXML doc).message ≠ "" ∧
        (validateXML doc).details = none) ∨
      ((validateXML doc).valid = true ∧ (validateXML doc).message ≠ "" ∧
        ∃ details, (validateXML doc).details = some details)) := by
  constructor
  · unfold validateXML
    cases h : validateXMLTry doc with
    | ok result => exact Or.inl rfl
    | error err => exact Or.inr ⟨err, rfl, rfl⟩
  · by_cases hpe : doc.hasElement "parsererror" = true
    · left
      rw [hasElement_true_iff] at hpe
      unfold validateXML validateXMLTry
      cases hl : doc.getElementsByTagName "parsererror" with
      | nil => exact absurd hl hpe
      | cons first rest => exact ⟨rfl, append_ne_empty_of_left _ _ (by decide), rfl⟩
    have hpe' : doc.hasElement "parsererror" = false := by simpa using hpe
    cases hroot : doc.documentElement with
    | none =>
      left
      rw [hasElement_false_iff] at hpe'
      unfold validateXML validateXMLTry
      rw [hpe', hroot]
      exact ⟨rfl, append_ne_empty_of_left _ _ (by decide), rfl⟩
    | some root =>
      by_cases hns : hasSepaNamespace doc = true
      · by_cases hk : doc.hasElement "CstmrCdtTrfInitn" = true ∨
            doc.hasElement "CstmrDrctDbtInitn" = true
        · have hr : reachesStructuralChecks doc := ⟨hpe', hns, hk⟩
          rw [validateXML_of_reaches doc hr]
          by_cases he : validationErrors doc (isCreditTransfer doc) = []
          · rw [if_pos he]
            refine Or.inr ⟨rfl, ?_, _, rfl⟩
            show successMessage (isCreditTransfer doc) ≠ ""
            cases isCreditTransfer doc <;> decide
          · rw [if_neg he]
            exact Or.inl
              ⟨rfl, intercalate_ne_empty _ _ he (validationErrors_ne_empty doc), rfl⟩
        · left
          have hk' : doc.hasElement "CstmrCdtTrfInitn" = false ∧
              doc.hasElement "CstmrDrctDbtInitn" = false := by
            cases h1 : doc.hasElement "CstmrCdtTrfInitn" <;>
              cases h2 : doc.hasElement "CstmrDrctDbtInitn" <;> simp [h1, h2] at hk ⊢
          rw [validateXML_noKind doc hpe' hns hk'.1 hk'.2]
          exact ⟨rfl, by decide, rfl⟩
      · left
        have hns' : hasSepaNamespace doc = false := by simpa using hns
        rw [validateXML_notSepa doc root hpe' hroot hns']
        exact ⟨rfl, by decide, rfl⟩

/-! ## Consequences of the structural checks (C18, C19, C20) -/

/-- Once the kind check is passed, the kind marker is found, so only the
four base elements can be missing. -/
theorem missingRequired_of_reaches (doc : XmlDocument) (h : reachesStructuralChecks doc) :
    missingRequired doc =
      ["Document", "GrpHdr", "NbOfTxs", "CtrlSum"].filter (fun name => !doc.hasElement name) := by
  rw [missingRequired_eq, isCreditTransfer_eq]
  obtain ⟨_, _, hk⟩ := h
  cases hct : doc.hasElement "CstmrCdtTrfInitn"
  · have hdd : doc.hasElement "CstmrDrctDbtInitn" = true := by
      rcases hk with h | h
      · rw [hct] at h; cases h
      · exact h
    simp [List.filter_cons, hdd]
  · simp [List.filter_cons, hct]

/-- What `validateXML` returns for a parser-error-free document without
root element: the `catch` branch turns the `TypeError` into a result. -/
theorem validateXML_noRoot (doc : XmlDocument)
    (hpe : doc.hasElement "parsererror" = false) (hroot : doc.documentElement = none) :
    validateXML doc =
      { valid := false
        message := "Erreur lors de la validation: rootElement is null"
        details := none } := by
  rw [hasElement_false_iff] at hpe
  unfold validateXML validateXMLTry
  rw [hpe, hroot]
  rfl

/-- The lines of the message of a document without `parsererror` element:
one fixed line, or the structural error lines. -/
theorem lines_of_no_parser_error (doc : XmlDocument)
    (hpe : doc.hasElement "parsererror" = false) :
    (∃ line, lines (validateXML doc).message = [line] ∧
      (line = "Erreur lors de la validation: rootElement is null" ∨ line = notSepaMessage ∨
        line = noKindMessage ∨ line = successMessage true ∨ line = successMessage false)) ∨
    (reachesStructuralChecks doc ∧
      lines (validateXML doc).message
        = (["Document", "GrpHdr", "NbOfTxs", "CtrlSum"].filter
            (fun name => !doc.hasElement name)).map missingElementMessage
          ++ kindErrors doc (isCreditTransfer doc)) := by
  cases hroot : doc.documentElement with
  | none =>
    left
    rw [validateXML_noRoot doc hpe hroot]
    exact ⟨_, lines_single _ (by decide), Or.inl rfl⟩
  | some root =>
    by_cases hns : hasSepaNamespace doc = true
    · by_cases hk : doc.hasElement "CstmrCdtTrfInitn" = true ∨
          doc.hasElement "CstmrDrctDbtInitn" = true
      · have hr : reachesStructuralChecks doc := ⟨hpe, hns, hk⟩
        by_cases he : validationErrors doc (isCreditTransfer doc) = []
        · left
          rw [validateXML_of_reaches doc hr, if_pos he]
          cases isCreditTransfer doc
          · exact ⟨successMessage false, lines_single (successMessage false) (by decide),
              Or.inr (Or.inr (Or.inr (Or.inr rfl)))⟩
          · exact ⟨successMessage true, lines_single (successMessage true) (by decide),
              Or.inr (Or.inr (Or.inr (Or.inl rfl)))⟩
        · right
          refine ⟨hr, ?_⟩
          rw [(lines_message_of_errors doc hr he).2.2, missingRequired_of_reaches doc hr]
      · left
        have hk' : doc.hasElement "CstmrCdtTrfInitn" = false ∧
            doc.hasElement "CstmrDrctDbtInitn" = false := by
          cases h1 : doc.hasElement "CstmrCdtTrfInitn" <;>
            cases h2 : doc.hasElement "CstmrDrctDbtInitn" <;> simp [h1, h2] at hk ⊢
        rw [validateXML_noKind doc hpe hns hk'.1 hk'.2]
        exact ⟨_, lines_single _ (by decide), Or.inr (Or.inr (Or.inl rfl))⟩
    · left
      have hns' : hasSepaNamespace doc = false := by simpa using hns
      rw [validateXML_notSepa doc root hpe hroot hns']
      exact ⟨_, lines_single _ (by decide), Or.inr (Or.inl rfl)⟩

/-- Counterexample to C18 as stated: a well-formed document with an element
named `parsererror` whose text ends with the wording of the missing-element
line for `CstmrCdtTrfInitn`; the returned message holds that line. -/
theorem kind_marker_line_counterexample :
    (validateXML echoedLineDoc).valid = false ∧
    lines (validateXML echoedLineDoc).message
      = ["Erreur de format XML: ", "Élément requis manquant: CstmrCdtTrfInitn"] ∧
    missingElementMessage "CstmrCdtTrfInitn" ∈ lines (validateXML echoedLineDoc).message := by
  decide

/-- C18 (amended): for a document without `parsererror` element, no line of
the message `validateXML` returns is the missing-element line of
`CstmrCdtTrfInitn` or of `CstmrDrctDbtInitn`; at most four lines are
missing-element lines and the message has at most six lines. When the
structural checks are reached the kind element is never among the missing
required elements. -/
theorem kind_marker_never_missing (doc : XmlDocument)
    (hpe : doc.hasElement "parsererror" = false) :
    "Élément requis manquant: CstmrCdtTrfInitn" ∉ lines (validateXML doc).message ∧
    "Élément requis manquant: CstmrDrctDbtInitn" ∉ lines (validateXML doc).message ∧
    (lines (validateXML doc).message).countP isMissingElementLine ≤ 4 ∧
    (lines (validateXML doc).message).length ≤ 6 ∧
    (reachesStructuralChecks doc →
      doc.hasElement
        (if doc.hasElement "CstmrCdtTrfInitn" then "CstmrCdtTrfInitn" else "CstmrDrctDbtInitn")
        = true ∧
      ∀ name ∈ missingRequired doc,
        name = "Document" ∨ name = "GrpHdr" ∨ name = "NbOfTxs" ∨ name = "CtrlSum") := by
  have hlast : reachesStructuralChecks doc →
      doc.hasElement
        (if doc.hasElement "CstmrCdtTrfInitn" then "CstmrCdtTrfInitn" else "CstmrDrctDbtInitn")
        = true ∧
      ∀ name ∈ missingRequired doc,
        name = "Document" ∨ name = "GrpHdr" ∨ name = "NbOfTxs" ∨ name = "CtrlSum" := by
    intro hr
    constructor
    · obtain ⟨_, _, hk⟩ := hr
      cases hct : doc.hasElement "CstmrCdtTrfInitn"
      · rcases hk with h | h
        · rw [hct] at h; cases h
        · simpa using h
      · simpa using hct
    · intro name hname
      rw [missingRequired_of_reaches doc hr] at hname
      simpa using List.mem_of_mem_filter hname
  rcases lines_of_no_parser_error doc hpe with ⟨line, hl, hline⟩ | ⟨hr, hl⟩
  · rw [hl]
    refine ⟨?_, ?_, ?_, ?_, hlast⟩
    · rcases hline with h | h | h | h | h <;> subst h <;> decide
    · rcases hline with h | h | h | h | h <;> subst h <;> decide
    · rcases hline with h | h | h | h | h <;> subst h <;> decide
    · simp
  · rw [hl]
    have hbase : ∀ name ∈ ["Document", "GrpHdr", "NbOfTxs", "CtrlSum"].filter
        (fun name => !doc.hasElement name),
        name = "Document" ∨ name = "GrpHdr" ∨ name = "NbOfTxs" ∨ name = "CtrlSum" := by
      intro name hname
      simpa using List.mem_of_mem_filter hname
    have hnot : ∀ marker : String,
        (missingElementMessage "Document" ≠ marker ∧ missingElementMessage "GrpHdr" ≠ marker ∧
          missingElementMessage "NbOfTxs" ≠ marker ∧ missingElementMessage "CtrlSum" ≠ marker ∧
          pmtInfTransferMessage ≠ marker ∧ pmtInfDebitMessage ≠ marker ∧
          mandateMessage ≠ marker) →
        marker ∉ (["Document", "GrpHdr", "NbOfTxs", "CtrlSum"].filter
            (fun name => !doc.hasElement name)).map missingElementMessage
          ++ kindErrors doc (isCreditTransfer doc) := by
      intro marker hm h
      rw [List.mem_append] at h
      rcases h with h | h
      · obtain ⟨name, hname, heq⟩ := List.mem_map.mp h
        rcases hbase name hname with h | h | h | h <;> subst h
        · exact hm.1 heq
        · exact hm.2.1 heq
        · exact hm.2.2.1 heq
        · exact hm.2.2.2.1 heq
      · rcases kindErrors_subset doc _ marker h with h | h | h
        · exact hm.2.2.2.2.1 h.symm
        · exact hm.2.2.2.2.2.1 h.symm
        · exact hm.2.2.2.2.2.2 h.symm
    have hlen : (["Document", "GrpHdr", "NbOfTxs", "CtrlSum"].filter
        (fun name => !doc.hasElement name)).length ≤ 4 :=
      List.length_filter_le _ _
    have hklen : (kindErrors doc (isCreditTransfer doc)).length ≤ 2 := by
      unfold kindErrors
      cases isCreditTransfer doc <;> cases doc.hasElement "PmtInf" <;>
        cases doc.hasElement "MndtRltdInf" <;> simp
    refine ⟨hnot _ (by decide), hnot _ (by decide), ?_, ?_, hlast⟩
    · rw [List.countP_append, List.countP_map]
      have h2 : List.countP isMissingElementLine (kindErrors doc (isCreditTransfer doc))
          = 0 := by
        rw [List.countP_eq_zero]
        intro a ha
        simp [kindErrors_not_missing doc _ a ha]
      rw [h2, Nat.add_zero]
      exact le_trans (List.countP_le_length _) hlen
    · rw [List.length_append, List.length_map]
      omega

/-- Witness of C18 (amended): the bare direct debit, whose message has the
maximum of four missing-element lines and six lines. -/
theorem kind_marker_never_missing_witness :
    "Élément requis manquant: CstmrDrctDbtInitn" ∉ lines (validateXML bareDebitDoc).message ∧
    (lines (validateXML bareDebitDoc).message).countP isMissingElementLine = 4 ∧
    (lines (validateXML bareDebitDoc).message).length = 6 :=
  ⟨(kind_marker_never_missing bareDebitDoc (by decide)).2.1, by decide, by decide⟩

/-- C19: in every Valid result `details.payments` is not empty, and when
the document has no `CstmrCdtTrfInitn` element (a direct debit)
`details.mandates` is not empty either; `details.transactions` can be empty:
the sample credit transfer without transaction element is Valid with zero
transactions. -/
theorem payments_and_mandates_nonempty :
    (∀ (doc : XmlDocument) (details : Details),
      (validateXML doc).valid = true → (validateXML doc).details = some details →
        details.payments ≠ [] ∧
        (doc.hasElement "CstmrCdtTrfInitn" = false → details.mandates ≠ [])) ∧
    (∃ (doc : XmlDocument) (details : Details),
      (validateXML doc).valid = true ∧ (validateXML doc).details = some details ∧
        details.transactions = []) := by
  constructor
  · intro doc details hv hd
    obtain ⟨hr, he⟩ := reaches_of_valid doc hv
    have e := (details_of_valid doc hv).2
    rw [hd] at e
    have hdet := Option.some.inj e
    obtain ⟨_, hp, hm⟩ := (validationErrors_eq_nil_iff doc).mp he
    constructor
    · rw [hdet]
      simp only [extractDetails]
      rw [extractPayments_eq]
      rw [hasElement_true_iff] at hp
      simpa using hp
    · intro hct
      have hct' : isCreditTransfer doc = false := by rw [isCreditTransfer_eq]; exact hct
      have hdd : isDirectDebit doc = true := by
        rw [isDirectDebit_eq]
        rcases hr.2.2 with h | h
        · rw [hct] at h; cases h
        · exact h
      have hmn := (hasElement_true_iff doc "MndtRltdInf").mp (hm hct')
      rw [hdet]
      simp only [extractDetails]
      rw [extractMandates_eq, hdd]
      simpa using hmn
  · exact ⟨noTransactionDoc,
      extractDetails noTransactionDoc (isCreditTransfer noTransactionDoc)
        (isDirectDebit noTransactionDoc), by decide⟩

/-- C20: a Valid result does not guarantee header totals. In every Valid
result a total is absent from the header as soon as the first `GrpHdr` holds
no such element, and the sample credit transfer whose `NbOfTxs` and
`CtrlSum` lie in `PmtInf` is Valid, passes the required-element check for
both, and has neither `details.header.nbOfTxs` nor `details.header.ctrlSum`. -/
theorem valid_without_header_totals :
    (∀ (doc : XmlDocument) (details : Details) (groupHeader : XmlNode) (rest : List XmlNode),
      (validateXML doc).valid = true → (validateXML doc).details = some details →
      doc.getElementsByTagName "GrpHdr" = groupHeader :: rest →
        (groupHeader.getElementsByTagName "NbOfTxs" = [] → details.header.nbOfTxs = none) ∧
        (groupHeader.getElementsByTagName "CtrlSum" = [] → details.header.ctrlSum = none)) ∧
    (∃ (doc : XmlDocument) (details : Details),
      (validateXML doc).valid = true ∧ (validateXML doc).details = some details ∧
        doc.hasElement "NbOfTxs" = true ∧ doc.hasElement "CtrlSum" = true ∧
        (doc.getElementsByTagName "GrpHdr").map (fun g =>
          (g.getElementsByTagName "NbOfTxs").length + (g.getElementsByTagName "CtrlSum").length)
          = [0] ∧
        (doc.getElementsByTagName "PmtInf").map (fun p =>
          ((p.getElementsByTagName "NbOfTxs").map XmlNode.textContent,
            (p.getElementsByTagName "CtrlSum").map XmlNode.textContent))
          = [(["1"], ["100.00"])] ∧
        details.header.nbOfTxs = none ∧ details.header.ctrlSum = none) := by
  constructor
  · intro doc details groupHeader rest hv hd hg
    have e := (details_of_valid doc hv).2
    rw [hd] at e
    have hdet := Option.some.inj e
    have hh : details.header = extractHeader doc := by rw [hdet]; rfl
    rw [hh]
    unfold extractHeader
    rw [hg]
    simp only [List.head?_cons, HeaderDetails.nbOfTxs, HeaderDetails.ctrlSum, firstTextContent]
    constructor
    · intro h; rw [h]; rfl
    · intro h; rw [h]; rfl
  · exact ⟨totalsInPmtInfDoc,
      extractDetails totalsInPmtInfDoc (isCreditTransfer totalsInPmtInfDoc)
        (isDirectDebit totalsInPmtInfDoc), by decide⟩

/-! ## Schema validation in the submit handler (C15, C16, C17) -/

theorem truthy_selectSchemaUrl (xmlString url : String)
    (h : selectSchemaUrl xmlString = some url) : truthy (some url) = true := by
  unfold selectSchemaUrl at h
  split_ifs at h
  · rw [← Option.some.inj h]; decide
  · rw [← Option.some.inj h]; decide

/-- A `loadSchema` call for a URL cached with a non-empty text returns the
text and only logs the call. -/
theorem loadSchema_hit (fetch : Fetch) (url text : String) (state : PageState)
    (hc : state.schemaCache.lookup url = some text) (ht : truthy (some text) = true) :
    loadSchema fetch url state
      = (.ok text, { state with loadSchemaCalls := state.loadSchemaCalls ++ [url] }) := by
  unfold loadSchema
  simp only [hc, ht, if_true]

/-- A `loadSchema` call for a URL without non-empty cached text goes on to
`fetch`. -/
theorem loadSchema_miss (fetch : Fetch) (url : String) (state : PageState)
    (hmiss : truthy (state.schemaCache.lookup url) = false) :
    loadSchema fetch url state
      = fetchSchema fetch url
          { state with loadSchemaCalls := state.loadSchemaCalls ++ [url] } := by
  unfold loadSchema
  simp only
  cases hc : state.schemaCache.lookup url with
  | none => rfl
  | some text =>
    rw [hc] at hmiss
    simp only [hmiss, Bool.false_eq_true, if_false]

/-- The submit handler on an input that is not blank and whose structural
result is Invalid: nothing else happens. -/
theorem submit_of_invalid (parse : String → XmlDocument) (fetch : Fetch)
    (xmllint : Option Xmllint) (xmlString : String) (state : PageState)
    (hblank : isBlank xmlString = false)
    (hv : (validateXML (parse xmlString)).valid = false) :
    submit parse fetch xmllint xmlString state
      = (.validated (validateXML (parse xmlString)), state) := by
  unfold submit
  rw [hblank]
  simp only [Bool.false_eq_true, if_false]
  rw [hv]

/-- The submit handler on an input that is not blank and whose structural
result is Valid, with `xmllint` defined: the `try` block and its `catch`. -/
theorem submit_of_valid (parse : String → XmlDocument) (fetch : Fetch) (lint : Xmllint)
    (xmlString : String) (state : PageState)
    (hblank : isBlank xmlString = false)
    (hv : (validateXML (parse xmlString)).valid = true) :
    submit parse fetch (some lint) xmlString state =
      match xsdValidation fetch lint xmlString (validateXML (parse xmlString)) state with
      | (.ok result, state) => (.validated result, state)
      | (.error err, state) =>
        (.validated { valid := false
                      message := "Erreur de validation XSD : " ++ err.message
                      details := none }, state) := by
  unfold submit
  rw [hblank]
  simp only [Bool.false_eq_true, if_false]
  rw [hv]

/-- The `try` block once a schema URL is selected and the schema is
loaded. -/
theorem xsdValidation_of_loaded (fetch : Fetch) (lint : Xmllint) (xmlString url xsdText : String)
    (structuralResult : ValidationResult) (state state' : PageState)
    (hurl : selectSchemaUrl xmlString = some url)
    (hload : loadSchema fetch url state = (.ok xsdText, state')) :
    (xsdValidation fetch lint xmlString structuralResult state).1 =
      match lint.validateXML xmlString xsdText with
      | .error err => .error err
      | .ok xsdRes =>
        match xsdRes.errors with
        | none => .ok structuralResult
        | some errors =>
          if errors.length ≠ 0 then
            .ok { valid := false
                  message := "Erreurs de validation XSD :\n" ++ "\n".intercalate errors
                  details := none }
          else .ok structuralResult := by
  unfold xsdValidation
  simp only [hurl, truthy_selectSchemaUrl xmlString url hurl, if_true, hload]
  cases lint.validateXML xmlString xsdText with
  | error err => rfl
  | ok xsdRes =>
    obtain ⟨errors⟩ := xsdRes
    cases errors with
    | none => rfl
    | some errors =>
      simp only
      split_ifs <;> rfl

/-- The `try` block when loading the schema fails: the error is thrown. -/
theorem xsdValidation_of_load_error (fetch : Fetch) (lint : Xmllint) (xmlString url : String)
    (structuralResult : ValidationResult) (state state' : PageState) (err : JsError)
    (hurl : selectSchemaUrl xmlString = some url)
    (hload : loadSchema fetch url state = (.error err, state')) :
    xsdValidation fetch lint xmlString structuralResult state = (.error err, state') := by
  unfold xsdValidation
  simp only [hurl, truthy_selectSchemaUrl xmlString url hurl, if_true, hload]

/-- C15: in the submit handler, for an input that is not blank: when the
structural result is Valid, `xmllint` is defined, the text holds a kind
marker, the schema is loaded and `xmllint.validateXML` returns a non-empty
`errors` array, the final result is Invalid without details and its message
is "Erreurs de validation XSD :\n" followed by the errors joined with
newlines; when `errors` is `null` or empty the final result is the
structural result; when the structural result is Invalid the final result is
the structural result and the page state, with its logs of `loadSchema`,
`fetch` and `xmllint` calls, is unchanged. -/
theorem xsd_errors_override (parse : String → XmlDocument) (fetch : Fetch) (lint : Xmllint)
    (xmlString : String) (state : PageState) (hblank : isBlank xmlString = false) :
    ((validateXML (parse xmlString)).valid = true →
      ∀ (url xsdText : String) (state' : PageState),
        selectSchemaUrl xmlString = some url →
        loadSchema fetch url state = (.ok xsdText, state') →
        (∀ errors : List String,
          lint.validateXML xmlString xsdText = .ok ⟨some errors⟩ → errors ≠ [] →
          (submit parse fetch (some lint) xmlString state).1 =
            .validated { valid := false
                         message := "Erreurs de validation XSD :\n" ++ "\n".intercalate errors
                         details := none }) ∧
        (lint.validateXML xmlString xsdText = .ok ⟨none⟩ ∨
            lint.validateXML xmlString xsdText = .ok ⟨some []⟩ →
          (submit parse fetch (some lint) xmlString state).1 =
            .validated (validateXML (parse xmlString)))) ∧
    ((validateXML (parse xmlString)).valid = false →
      ∀ xmllint : Option Xmllint,
        submit parse fetch xmllint xmlString state
          = (.validated (validateXML (parse xmlString)), state)) := by
  constructor
  · intro hv url xsdText state' hurl hload
    have hs := submit_of_valid parse fetch lint xmlString state hblank hv
    have hx := xsdValidation_of_loaded fetch lint xmlString url xsdText
      (validateXML (parse xmlString)) state state' hurl hload
    constructor
    · intro errors hlint hne
      rw [hlint] at hx
      have hlen : errors.length ≠ 0 := by
        intro h; exact hne (List.length_eq_zero.mp h)
      simp only [hlen, ne_eq, not_false_eq_true, if_true] at hx
      rw [hs]
      cases hxv : xsdValidation fetch lint xmlString (validateXML (parse xmlString)) state with
      | mk r s =>
        rw [hxv] at hx
        simp only at hx
        subst hx
        rfl
    · intro hlint
      rw [hs]
      cases hxv : xsdValidation fetch lint xmlString (validateXML (parse xmlString)) state with
      | mk r s =>
        rw [hxv] at hx
        simp only at hx
        rcases hlint with h | h <;> rw [h] at hx <;> simp only at hx
        · subst hx; rfl
        · simp only [List.length_nil, ne_eq, not_true_eq_false, if_false] at hx
          subst hx; rfl
  · intro hv xmllint
    exact submit_of_invalid parse fetch xmllint xmlString state hblank hv

/-- Witness of C15: the sample credit transfer with an `xmllint` that
reports two errors, and the Invalid bare credit transfer. -/
theorem xsd_errors_override_witness :
    (submit creditParse schemaFetch (some failingLint) "<CstmrCdtTrfInitn/>"
        PageState.initial).1 =
      .validated
        { valid := false
          message := "Erreurs de validation XSD :\n" ++
            "\n".intercalate ["line 3: element Amt: not expected", "line 9: missing IBAN"]
          details := none } ∧
    submit bareParse schemaFetch (some failingLint) "<CstmrCdtTrfInitn/>" PageState.initial
      = (.validated (validateXML (bareParse "<CstmrCdtTrfInitn/>")), PageState.initial) :=
  ⟨((xsd_errors_override creditParse schemaFetch failingLint "<CstmrCdtTrfInitn/>"
        PageState.initial (by decide)).1 (by decide) SCHEMA_URLS.credit "<xs:schema/>" _
        (by decide) rfl).1 _ rfl (by decide),
   (xsd_errors_override bareParse schemaFetch failingLint "<CstmrCdtTrfInitn/>"
        PageState.initial (by decide)).2 (by decide) (some failingLint)⟩

/-- C16: in the submit handler, for an input that is not blank whose
structural result is Valid, with `xmllint` defined and a kind marker in the
text: when `loadSchema` throws, in particular when the schema is not cached
and `fetch` rejects or answers with a non-ok response, or when
`xmllint.validateXML` throws, the handler ends with an Invalid result
without details whose message is "Erreur de validation XSD : " followed by
the message of the error, which it therefore contains. -/
theorem xsd_failure_degrades (parse : String → XmlDocument) (fetch : Fetch) (lint : Xmllint)
    (xmlString url : String) (state : PageState)
    (hblank : isBlank xmlString = false)
    (hv : (validateXML (parse xmlString)).valid = true)
    (hurl : selectSchemaUrl xmlString = some url) :
    (∀ (err : JsError) (state' : PageState),
      loadSchema fetch url state = (.error err, state') →
        submit parse fetch (some lint) xmlString state =
          (.validated { valid := false
                        message := "Erreur de validation XSD : " ++ err.message
                        details := none }, state') ∧
        includes ("Erreur de validation XSD : " ++ err.message) err.message = true) ∧
    (truthy (state.schemaCache.lookup url) = false →
      (∀ err, fetch state.fetchCalls url = .rejected err →
        (loadSchema fetch url state).1 = .error err) ∧
      (∀ body, fetch state.fetchCalls url = .response false body →
        (loadSchema fetch url state).1 = .error ⟨"Impossible de charger le schéma XSD"⟩)) ∧
    (∀ (xsdText : String) (state' : PageState) (err : JsError),
      loadSchema fetch url state = (.ok xsdText, state') →
      lint.validateXML xmlString xsdText = .error err →
        (submit parse fetch (some lint) xmlString state).1 =
          .validated { valid := false
                       message := "Erreur de validation XSD : " ++ err.message
                       details := none } ∧
        includes ("Erreur de validation XSD : " ++ err.message) err.message = true) := by
  have hs := submit_of_valid parse fetch lint xmlString state hblank hv
  refine ⟨?_, ?_, ?_⟩
  · intro err state' hload
    refine ⟨?_, includes_append_right _ _⟩
    rw [hs, xsdValidation_of_load_error fetch lint xmlString url _ state state' err hurl hload]
  · intro hmiss
    have hload := loadSchema_miss fetch url state hmiss
    constructor
    · intro err hf
      rw [hload]
      unfold fetchSchema
      simp only [hf]
    · intro body hf
      rw [hload]
      unfold fetchSchema
      simp only [hf, Bool.not_false, if_true]
  · intro xsdText state' err hload hlint
    refine ⟨?_, includes_append_right _ _⟩
    have hx := xsdValidation_of_loaded fetch lint xmlString url xsdText
      (validateXML (parse xmlString)) state state' hurl hload
    rw [hlint] at hx
    rw [hs]
    cases hxv : xsdValidation fetch lint xmlString (validateXML (parse xmlString)) state with
    | mk r s =>
      rw [hxv] at hx
      simp only at hx
      subst hx
      rfl

/-- Witness of C16: a non-ok response, then an `xmllint` that throws. -/
theorem xsd_failure_degrades_witness :
    (submit creditParse notFoundFetch (some passingLint) "<CstmrCdtTrfInitn/>"
        PageState.initial).1 =
      .validated { valid := false
                   message := "Erreur de validation XSD : Impossible de charger le schéma XSD"
                   details := none } ∧
    (submit creditParse schemaFetch (some throwingLint) "<CstmrCdtTrfInitn/>"
        PageState.initial).1 =
      .validated { valid := false
                   message := "Erreur de validation XSD : out of memory"
                   details := none } :=
  ⟨congrArg Prod.fst
      (((xsd_failure_degrades creditParse notFoundFetch passingLint "<CstmrCdtTrfInitn/>"
        SCHEMA_URLS.credit PageState.initial (by decide) (by decide) (by decide)).1
        ⟨"Impossible de charger le schéma XSD"⟩ _ rfl).1),
   ((xsd_failure_degrades creditParse schemaFetch throwingLint "<CstmrCdtTrfInitn/>"
        SCHEMA_URLS.credit PageState.initial (by decide) (by decide) (by decide)).2.2
        "<xs:schema/>" _ ⟨"out of memory"⟩ rfl rfl).1⟩

/-- A `loadSchema` call that throws leaves the cache as it was and has
called `fetch` once. -/
theorem loadSchema_error (fetch : Fetch) (url : String) (state state1 : PageState)
    (err : JsError) (h : loadSchema fetch url state = (.error err, state1)) :
    state1.schemaCache = state.schemaCache ∧ state1.fetchCalls = state.fetchCalls ++ [url] := by
  have hf : ∀ s : PageState, fetchSchema fetch url s = (.error err, state1) →
      state1.schemaCache = s.schemaCache ∧ state1.fetchCalls = s.fetchCalls ++ [url] := by
    intro s hs
    unfold fetchSchema at hs
    cases hfo : fetch s.fetchCalls url with
    | rejected e =>
      simp only [hfo, Prod.mk.injEq] at hs
      rw [← hs.2]; exact ⟨rfl, rfl⟩
    | response ok body =>
      simp only [hfo] at hs
      cases ok with
      | false =>
        simp only [Bool.not_false, if_true, Prod.mk.injEq] at hs
        rw [← hs.2]; exact ⟨rfl, rfl⟩
      | true =>
        cases body with
        | error e =>
          simp only [Bool.not_true, Bool.false_eq_true, if_false, Prod.mk.injEq] at hs
          rw [← hs.2]; exact ⟨rfl, rfl⟩
        | ok text => simp at hs
  by_cases hmiss : truthy (state.schemaCache.lookup url) = false
  · rw [loadSchema_miss fetch url state hmiss] at h
    exact hf { state with loadSchemaCalls := state.loadSchemaCalls ++ [url] } h
  · cases hc : state.schemaCache.lookup url with
    | none => rw [hc] at hmiss; exact absurd rfl hmiss
    | some text =>
      rw [hc] at hmiss
      rw [loadSchema_hit fetch url text state hc (by simpa using hmiss)] at h
      simp at h

/-- A `loadSchema` call that returns a text leaves that text in the cache
for the URL and has called `fetch` at most once. -/
theorem loadSchema_ok (fetch : Fetch) (url text : String) (state state1 : PageState)
    (h : loadSchema fetch url state = (.ok text, state1)) :
    state1.schemaCache.lookup url = some text ∧
      state1.fetchCalls.length ≤ state.fetchCalls.length + 1 := by
  have hf : ∀ s : PageState, fetchSchema fetch url s = (.ok text, state1) →
      state1.schemaCache.lookup url = some text ∧
        state1.fetchCalls.length ≤ s.fetchCalls.length + 1 := by
    intro s hs
    unfold fetchSchema at hs
    cases hfo : fetch s.fetchCalls url with
    | rejected e => simp [hfo] at hs
    | response ok body =>
      simp only [hfo] at hs
      cases ok with
      | false => simp at hs
      | true =>
        cases body with
        | error e => simp at hs
        | ok t =>
          simp only [Bool.not_true, Bool.false_eq_true, if_false, Prod.mk.injEq,
            Except.ok.injEq] at hs
          rw [← hs.2, ← hs.1]
          simp [List.lookup]
  by_cases hmiss : truthy (state.schemaCache.lookup url) = false
  · rw [loadSchema_miss fetch url state hmiss] at h
    exact hf { state with loadSchemaCalls := state.loadSchemaCalls ++ [url] } h
  · cases hc : state.schemaCache.lookup url with
    | none => rw [hc] at hmiss; exact absurd rfl hmiss
    | some cached =>
      rw [hc] at hmiss
      rw [loadSchema_hit fetch url cached state hc (by simpa using hmiss)] at h
      simp only [Prod.mk.injEq, Except.ok.injEq] at h
      rw [← h.2, ← h.1]
      exact ⟨hc, Nat.le_succ _⟩

/-- Counterexample to C17 as stated: with a `fetch` that answers with a
non-ok response, and with one that answers ok with an empty text, two
sequential `loadSchema` calls for the same URL call `fetch` twice. -/
theorem load_schema_twice_counterexample :
    (loadSchema notFoundFetch SCHEMA_URLS.credit
        (loadSchema notFoundFetch SCHEMA_URLS.credit PageState.initial).2).2.fetchCalls
      = [SCHEMA_URLS.credit, SCHEMA_URLS.credit] ∧
    (loadSchema emptyFetch SCHEMA_URLS.credit
        (loadSchema emptyFetch SCHEMA_URLS.credit PageState.initial).2).2.fetchCalls
      = [SCHEMA_URLS.credit, SCHEMA_URLS.credit] := by
  decide

/-- C17 (amended): for every URL, page state and `fetch`, when a
`loadSchema` call returns a text that is not empty, the next call for the
same URL returns that text from the cache without calling `fetch`, so the
two calls call `fetch` at most once in total; when the first call throws,
nothing is cached and `fetch` has been called once, and a second call from
an empty cache calls it again. -/
theorem second_load_is_cache_hit (fetch : Fetch) (url : String) (state state1 : PageState) :
    (∀ text, loadSchema fetch url state = (.ok text, state1) → text ≠ "" →
      loadSchema fetch url state1
        = (.ok text, { state1 with loadSchemaCalls := state1.loadSchemaCalls ++ [url] }) ∧
      (loadSchema fetch url state1).2.fetchCalls.length ≤ state.fetchCalls.length + 1) ∧
    (∀ err, loadSchema fetch url state = (.error err, state1) →
      state1.schemaCache = state.schemaCache ∧
      state1.fetchCalls = state.fetchCalls ++ [url] ∧
      (state.schemaCache.lookup url = none →
        (loadSchema fetch url state1).2.fetchCalls = state.fetchCalls ++ [url, url])) := by
  constructor
  · intro text h hne
    obtain ⟨hc, hlen⟩ := loadSchema_ok fetch url text state state1 h
    have ht : truthy (some text) = true := by
      unfold truthy
      simpa using hne
    rw [loadSchema_hit fetch url text state1 hc ht]
    exact ⟨rfl, hlen⟩
  · intro err h
    obtain ⟨hc, hfc⟩ := loadSchema_error fetch url state state1 err h
    refine ⟨hc, hfc, ?_⟩
    intro hmiss
    rw [loadSchema_miss fetch url state1 (by rw [hc, hmiss]; rfl)]
    unfold fetchSchema
    cases fetch state1.fetchCalls url with
    | rejected e => simp [hfc]
    | response ok body =>
      cases ok with
      | false => simp [hfc]
      | true => cases body <;> simp [hfc]

/-- Witness of C17 (amended): a `fetch` that answers with a schema text is
called once by two sequential `loadSchema` calls. -/
theorem second_load_is_cache_hit_witness :
    (loadSchema schemaFetch SCHEMA_URLS.credit
        (loadSchema schemaFetch SCHEMA_URLS.credit PageState.initial).2).1
      = .ok "<xs:schema/>" ∧
    (loadSchema schemaFetch SCHEMA_URLS.credit
        (loadSchema schemaFetch SCHEMA_URLS.credit PageState.initial).2).2.fetchCalls.length
      ≤ 1 :=
  ⟨congrArg Prod.fst
      (((second_load_is_cache_hit schemaFetch SCHEMA_URLS.credit PageState.initial
        (loadSchema schemaFetch SCHEMA_URLS.credit PageState.initial).2).1
        "<xs:schema/>" rfl (by decide)).1),
   ((second_load_is_cache_hit schemaFetch SCHEMA_URLS.credit PageState.initial
        (loadSchema schemaFetch SCHEMA_URLS.credit PageState.initial).2).1
        "<xs:schema/>" rfl (by decide)).2⟩

end SepaValidator
